import Mathlib

/-!
Verification development for the-commons content pipeline.

This file gives a shallow embedding, in Lean 4, of the three scripts that
carry the semantics specified in spec.md:

* `csv-to-json.py`   — field coercion (`parse_value`) and catalog building
  (`csv_to_buildings_json`);
* `calculate-civic-scores.py` — the CARENS civic-score calculator
  (`calculate_civic_score`) and the in-place recalculation pass (`main`);
* `fix-leaderboard-display.py` — the leaderboard rendering snippet it installs
  (the `new_code` JavaScript), modelled as `renderRow` / `updateLeaderboard`.

Modelling conventions:

* A CSV row (Python `csv.DictReader` dict) is an association list
  `Row := List (String × String)`; `row[k]` is `List.lookup k r`, raising
  `KeyError k` when absent, and `row.get(k, d)` is lookup with a default.
* Python numbers are idealised as exact rationals `ℚ` during extraction and
  as real numbers `ℝ` once `math.sqrt` enters; IEEE-754 rounding noise and the
  special literals `inf` / `infinity` / `nan` are outside the model, as are
  underscore digit separators and non-ASCII digits in numeric literals.
* Fallible Python code returns `Except PyErr`; an uncaught exception is the
  `.error` case and aborts the run with no output, exactly as the scripts do
  (both scripts write their output file only after the whole loop finishes).
* `round(x, 1)` is idealised over `ℝ` as round-half-to-even at one decimal
  (`pyRound1`), the rule Python's `round` implements on exact values.
-/

/-- Python exceptions that the modelled code can raise: `KeyError` from a
`row[...]` access on a missing column, `ValueError` from `float(...)` /
`math.sqrt(...)`.  The `ValueError` message is kept verbatim except that the
quotes Python puts around the offending string are omitted. -/
inductive PyErr where
  | keyError (k : String)
  | valueError (msg : String)
deriving DecidableEq, Repr

/-- Result of `parse_value` in csv-to-json.py: the coerced union
{Absent, Integer, Real, Boolean, Text} (`None` / `int` / `float` / `bool` /
`str`).  Floats are idealised as exact rationals. -/
inductive PyValue where
  | none
  | int (n : Int)
  | real (q : ℚ)
  | bool (b : Bool)
  | str (s : String)
deriving DecidableEq, Repr

instance : Inhabited PyValue := ⟨PyValue.none⟩

/-- Characters stripped by Python's `int()` / `float()` before parsing a
numeric literal (ASCII whitespace). -/
def isPyWs (c : Char) : Bool :=
  c = ' ' || c = '\t' || c = '\n' || c = '\r' || c = '\x0b' || c = '\x0c'

/-- Strip leading and trailing whitespace from a character list. -/
def pyStrip (cs : List Char) : List Char :=
  ((cs.dropWhile isPyWs).reverse.dropWhile isPyWs).reverse

/-- Numeric value of a digit string (most significant first). -/
def digitsVal (cs : List Char) : Nat :=
  cs.foldl (fun n c => 10 * n + (c.toNat - 48)) 0

/-- All characters are ASCII decimal digits. -/
def allDigits (cs : List Char) : Bool :=
  cs.all (fun c => c.isDigit)

/-- Parse a nonempty all-digit string. -/
def parseDigits? (cs : List Char) : Option Nat :=
  if !cs.isEmpty && allDigits cs then some (digitsVal cs) else none

/-- Strip one optional leading sign, returning the sign as `±1`. -/
def stripSign (cs : List Char) : Int × List Char :=
  match cs with
  | '-' :: t => (-1, t)
  | '+' :: t => (1, t)
  | _ => (1, cs)

/-- Model of Python's `int(s)` for base 10: optional surrounding whitespace,
optional sign, then one or more ASCII digits.  (Underscore separators and
non-ASCII digits, which CPython also accepts, are outside the model.) -/
def pyInt? (s : String) : Option Int :=
  let sd := stripSign (pyStrip s.data)
  match parseDigits? sd.2 with
  | some n => some (sd.1 * (n : Int))
  | none => none

/-- Mantissa of a float literal: `digits`, `digits.digits?`, or `.digits`,
with at least one digit overall.  Returned as the digit value with the
fractional length, i.e. the pair `(n, k)` denoting `n / 10^k`. -/
def parseMantissa? (cs : List Char) : Option (Nat × Nat) :=
  let ip := cs.takeWhile (fun c => !(c == '.'))
  let rest := cs.dropWhile (fun c => !(c == '.'))
  match rest with
  | [] => (parseDigits? ip).map (fun n => (n, 0))
  | _ :: fp =>
    if fp.contains '.' then none
    else if ip.isEmpty && fp.isEmpty then none
    else if allDigits ip && allDigits fp then
      some (digitsVal ip * 10 ^ fp.length + digitsVal fp, fp.length)
    else none

/-- Exact rational `sign * n * 10 ^ e`, built with `mkRat` over integer
arithmetic only, so that the kernel can evaluate it. -/
def ratScaled (sign : Int) (n : Nat) (e : Int) : ℚ :=
  if 0 ≤ e then mkRat (sign * ((n * 10 ^ e.toNat : Nat) : Int)) 1
  else mkRat (sign * (n : Int)) (10 ^ (-e).toNat)

/-- Model of Python's `float(s)`: optional whitespace and sign, a decimal
mantissa, and an optional `e`/`E` exponent, evaluated exactly over `ℚ`.
The special literals `inf`, `infinity` and `nan` are outside the model. -/
def pyFloat? (s : String) : Option ℚ :=
  let sd := stripSign (pyStrip s.data)
  let mant := sd.2.takeWhile (fun c => !(c == 'e' || c == 'E'))
  let expPart := sd.2.dropWhile (fun c => !(c == 'e' || c == 'E'))
  match parseMantissa? mant with
  | Option.none => none
  | some m =>
    match expPart with
    | [] => some (ratScaled sd.1 m.1 (-(m.2 : Int)))
    | _ :: et =>
      let esd := stripSign et
      match parseDigits? esd.2 with
      | Option.none => none
      | some e => some (ratScaled sd.1 m.1 (esd.1 * (e : Int) - (m.2 : Int)))

/-- ASCII lower-casing, modelling `value.lower()` as used on candidate
boolean strings. -/
def lowerChar (c : Char) : Char :=
  if 'A' ≤ c ∧ c ≤ 'Z' then Char.ofNat (c.toNat + 32) else c

/-- Lower-case a string (ASCII). -/
def lowerStr (s : String) : String :=
  String.mk (s.data.map lowerChar)

/-- The `except ValueError:` fallback of `parse_value`: boolean check, then
the original string. -/
def boolOrStr (value : String) : PyValue :=
  let lw := lowerStr value
  if lw = "true" then .bool true
  else if lw = "false" then .bool false
  else .str value

/-- Embedding of `parse_value` (csv-to-json.py, lines 7–22).  A dot-free
string attempts `int(value)`; a string containing `.` attempts
`float(value)`; a `ValueError` from either falls to the boolean check and
finally to the original string. -/
def parse_value (value : String) : PyValue :=
  if value = "" then .none
  else if '.' ∈ value.data then
    match pyFloat? value with
    | some q => .real q
    | Option.none => boolOrStr value
  else
    match pyInt? value with
    | some n => .int n
    | Option.none => boolOrStr value

/-- The coercion rules exactly as claim C7 orders them: rule 3 ("otherwise a
successful real-number parse yields Real") is attempted for every string not
caught by rules 1–2, including dot-free strings that failed the integer
parse. -/
def coerceSpecClaim (value : String) : PyValue :=
  if value = "" then .none
  else
    match (if '.' ∈ value.data then Option.none else pyInt? value) with
    | some n => .int n
    | Option.none =>
      match pyFloat? value with
      | some q => .real q
      | Option.none => boolOrStr value

/-- The coercion rules amended to match the code: the real-number parse is
attempted only for strings that contain a decimal point; a dot-free string
that fails the integer parse falls straight to the boolean/text checks. -/
def coerceSpecAmended (value : String) : PyValue :=
  if value = "" then .none
  else
    match (if '.' ∈ value.data then Option.none else pyInt? value) with
    | some n => .int n
    | Option.none =>
      match (if '.' ∈ value.data then pyFloat? value else Option.none) with
      | some q => .real q
      | Option.none => boolOrStr value

/-- Claim C7 (counterexample): the rules as stated in the claim give
`Real(100000)` for `"1e5"` (Python's real-number parse accepts exponent
notation), but `parse_value` returns `Text("1e5")` — the code never attempts
the real parse on a dot-free string. -/
theorem C7_counterexample :
    coerceSpecClaim "1e5" = PyValue.real (mkRat 100000 1) ∧
    parse_value "1e5" = PyValue.str "1e5" := by
  constructor <;> decide

/-- Claim C7 (amended): `parse_value` applies the coercion rules in order,
with the real-number parse attempted only for strings containing a decimal
point; the listed examples `"3"` → Integer 3, `"3.5"` → Real 3.5, `"3.0"` →
Real, `"true"` → Boolean true, `""` → Absent, `"north"` → Text, `"3abc"` →
Text all hold. -/
theorem C7_theorem :
    (∀ s : String, parse_value s = coerceSpecAmended s) ∧
    parse_value "3" = PyValue.int 3 ∧
    parse_value "3.5" = PyValue.real (mkRat 7 2) ∧
    parse_value "3.0" = PyValue.real (mkRat 3 1) ∧
    parse_value "true" = PyValue.bool true ∧
    parse_value "" = PyValue.none ∧
    parse_value "north" = PyValue.str "north" ∧
    parse_value "3abc" = PyValue.str "3abc" := by
  refine ⟨fun s => ?_, by decide, by decide, by decide, by decide, by decide,
    by decide, by decide⟩
  by_cases h0 : s = ""
  · simp [parse_value, coerceSpecAmended, h0]
  · by_cases hdot : '.' ∈ s.data
    · simp [parse_value, coerceSpecAmended, h0, hdot]
    · cases hi : pyInt? s <;> simp [parse_value, coerceSpecAmended, h0, hdot, hi]

/-- Claim C8: `parse_value` is total — it returns a value of the coerced
union for every input string (the embedding's return type is `PyValue`, with
no error case) — and a string whose attempted integer or real parse fails
falls through to the boolean check and ultimately to Text. -/
theorem C8_theorem (s : String) (hne : s ≠ "")
    (h : (('.' ∉ s.data) ∧ pyInt? s = Option.none) ∨
         (('.' ∈ s.data) ∧ pyFloat? s = Option.none)) :
    parse_value s = PyValue.bool true ∨ parse_value s = PyValue.bool false ∨
    parse_value s = PyValue.str s := by
  have hb : boolOrStr s = PyValue.bool true ∨ boolOrStr s = PyValue.bool false ∨
      boolOrStr s = PyValue.str s := by
    unfold boolOrStr
    by_cases h1 : lowerStr s = "true" <;> by_cases h2 : lowerStr s = "false" <;>
      simp [h1, h2]
  rcases h with ⟨hdot, hp⟩ | ⟨hdot, hp⟩ <;>
    simpa [parse_value, hne, hdot, hp] using hb

/-- Claim C8 witness: the numeric-looking string `"3abc"` (dot-free, failing
the integer parse) falls through to Text rather than failing. -/
theorem C8_witness :
    parse_value "3abc" = PyValue.bool true ∨
    parse_value "3abc" = PyValue.bool false ∨
    parse_value "3abc" = PyValue.str "3abc" :=
  C8_theorem "3abc" (by decide) (Or.inl ⟨by decide, by decide⟩)

/-! ## Rows and field access -/

/-- A tabular row as produced by `csv.DictReader`: field name to raw string
value, looked up by first occurrence. -/
abbrev Row := List (String × String)

/-- Python `row[k]`: the value, or `KeyError k` if the column is absent. -/
def getField (r : Row) (k : String) : Except PyErr String :=
  match List.lookup k r with
  | some v => Except.ok v
  | Option.none => Except.error (PyErr.keyError k)

/-- Functional model of `row[k] = v`: replace the first binding of `k`, or
append one (dicts keep the position of an existing key and append new keys
at the end). -/
def setField (r : Row) (k v : String) : Row :=
  match r with
  | [] => [(k, v)]
  | (k', v') :: t => if k' = k then (k, v) :: t else (k', v') :: setField t k v

theorem lookup_setField_self (r : Row) (k v : String) :
    List.lookup k (setField r k v) = some v := by
  induction r with
  | nil => simp [setField, List.lookup]
  | cons p t ih =>
    obtain ⟨a, b⟩ := p
    by_cases h : a = k
    · simp [setField, h, List.lookup]
    · have hne : (k == a) = false := by
        simp only [beq_eq_false_iff_ne, ne_eq]
        exact fun hh => h hh.symm
      simp [setField, h, List.lookup, hne, ih]

theorem lookup_setField_ne (r : Row) (k v k' : String) (h : k' ≠ k) :
    List.lookup k' (setField r k v) = List.lookup k' r := by
  induction r with
  | nil =>
    have hne : (k' == k) = false := by simpa [beq_eq_false_iff_ne] using h
    simp [setField, List.lookup, hne]
  | cons p t ih =>
    obtain ⟨a, b⟩ := p
    by_cases ha : a = k
    · subst ha
      have hne : (k' == a) = false := by simpa [beq_eq_false_iff_ne] using h
      simp [setField, List.lookup, hne]
    · by_cases hk' : k' = a
      · subst hk'
        simp [setField, ha, List.lookup]
      · have hne : (k' == a) = false := by simpa [beq_eq_false_iff_ne] using hk'
        simp [setField, ha, List.lookup, hne, ih]

theorem setField_setField (r : Row) (k v w : String) :
    setField (setField r k v) k w = setField r k w := by
  induction r with
  | nil => simp [setField]
  | cons p t ih =>
    obtain ⟨a, b⟩ := p
    by_cases h : a = k
    · simp [setField, h]
    · simp [setField, h, ih]

/-! ## The CARENS civic-score calculator (calculate-civic-scores.py) -/

/-- Numeric extraction `float(building.get(key, dflt) or dflt)`: the default
is used when the key is absent or its value is the empty string (falsy);
a non-empty string that `float()` cannot parse raises `ValueError`. -/
def pyFloatField (b : Row) (k : String) (dflt : ℚ) : Except PyErr ℚ :=
  match List.lookup k b with
  | Option.none => Except.ok dflt
  | some s =>
    if s = "" then Except.ok dflt
    else
      match pyFloat? s with
      | some q => Except.ok q
      | Option.none =>
        Except.error (PyErr.valueError ("could not convert string to float: " ++ s))

/-- The attenuation actually used by the formula: extracted with default 1,
then the `if attenuation == 0: attenuation = 1` substitution. -/
def effectiveAttenuation (b : Row) (ak : String) : Except PyErr ℚ :=
  match pyFloatField b ak 1 with
  | Except.error e => Except.error e
  | Except.ok a => Except.ok (if a = 0 then 1 else a)

/-- One line of the calculator's breakdown, modelled as a record rather than
the formatted string: the dimension name, the extracted impact, the
substituted attenuation, and the weighted contribution. -/
structure BLine where
  dimension : String
  impact : ℚ
  attenuation : ℚ
  weighted : ℝ

/-- The six fixed CARENS dimensions in source order, as
(name, impact key, attenuation key); the source derives the name by
stripping the `_impact` suffix from the impact key. -/
def dimensions : List (String × String × String) :=
  [("culture", "culture_impact", "culture_attenuation"),
   ("affordability", "affordability_impact", "affordability_attenuation"),
   ("resilience", "resilience_impact", "resilience_attenuation"),
   ("environment", "environment_impact", "environment_attenuation"),
   ("noise", "noise_impact", "noise_attenuation"),
   ("safety", "safety_impact", "safety_attenuation")]

/-- One iteration of the calculator loop: extract impact (default 0) and
attenuation (default 1, with zero substituted by 1), then compute
`impact / math.sqrt(attenuation)`.  `math.sqrt` raises
`ValueError: math domain error` on a negative argument — the zero
substitution does not protect negative attenuations. -/
noncomputable def dimCompute (nm : String) (b : Row) (ik ak : String) :
    Except PyErr (ℝ × BLine) :=
  match pyFloatField b ik 0 with
  | Except.error e => Except.error e
  | Except.ok impact =>
    match effectiveAttenuation b ak with
    | Except.error e => Except.error e
    | Except.ok atten =>
      if atten < 0 then Except.error (PyErr.valueError "math domain error")
      else
        Except.ok ((impact : ℝ) / Real.sqrt ((atten : ℚ) : ℝ),
          ⟨nm, impact, atten, (impact : ℝ) / Real.sqrt ((atten : ℚ) : ℝ)⟩)

/-- The `for impact_key, atten_key in dimensions:` loop, accumulating the
running score and the breakdown list. -/
noncomputable def calcLoop (b : Row) :
    List (String × String × String) → ℝ × List BLine → Except PyErr (ℝ × List BLine)
  | [], acc => Except.ok acc
  | d :: ds, acc =>
    match dimCompute d.1 b d.2.1 d.2.2 with
    | Except.error e => Except.error e
    | Except.ok wl => calcLoop b ds (acc.1 + wl.1, acc.2 ++ [wl.2])

/-- Round-half-to-even to an integer, the rule Python's `round` implements,
idealised over `ℝ`. -/
noncomputable def roundHalfEven (x : ℝ) : ℤ :=
  if Int.fract x < 1 / 2 then ⌊x⌋
  else if 1 / 2 < Int.fract x then ⌊x⌋ + 1
  else if Even ⌊x⌋ then ⌊x⌋ else ⌊x⌋ + 1

/-- Python's `round(x, 1)` idealised over `ℝ`. -/
noncomputable def pyRound1 (x : ℝ) : ℝ :=
  ((roundHalfEven (10 * x) : ℤ) : ℝ) / 10

/-- Embedding of `calculate_civic_score` (calculate-civic-scores.py,
lines 11–40): run the dimension loop from `(0.0, [])` and round the
accumulated score to one decimal. -/
noncomputable def calculate_civic_score (b : Row) : Except PyErr (ℝ × List BLine) :=
  match calcLoop b dimensions (0, []) with
  | Except.error e => Except.error e
  | Except.ok sb => Except.ok (pyRound1 sb.1, sb.2)

/-- Claim C1 (counterexample): a supplied attenuation of `-4` (a number
`a ≤ 0`) does not yield effective attenuation 1 — the computation fails with
`ValueError: math domain error` from `math.sqrt(-4)`, because the code only
substitutes 1 when the attenuation is exactly zero. -/
theorem C1_counterexample :
    calculate_civic_score [("culture_attenuation", "-4")] =
      Except.error (PyErr.valueError "math domain error") := by
  rfl

theorem pyFloatEmpty : pyFloat? "" = Option.none := by decide

theorem ne_empty_of_pyFloat {s : String} {a : ℚ} (h : pyFloat? s = some a) :
    s ≠ "" := by
  intro he
  rw [he, pyFloatEmpty] at h
  exact Option.noConfusion h

/-- Claim C1 (amended): for a supplied attenuation string parsing to a
number `a`, the code substitutes effective attenuation 1 exactly when
`a = 0` (and then the dimension computes `impact / sqrt(1) = impact`
without failing, whenever the impact extraction succeeds); for `a < 0` the
dimension computation fails with `ValueError: math domain error` from
`math.sqrt` whenever the impact extraction succeeds. -/
theorem C1_theorem (b : Row) (nm ik ak s : String) (a : ℚ)
    (hlk : List.lookup ak b = some s) (hpa : pyFloat? s = some a) :
    (a = 0 → effectiveAttenuation b ak = Except.ok 1 ∧
      ∀ i : ℚ, pyFloatField b ik 0 = Except.ok i →
        dimCompute nm b ik ak = Except.ok (((i : ℚ) : ℝ), ⟨nm, i, 1, ((i : ℚ) : ℝ)⟩)) ∧
    (a < 0 → ∀ i : ℚ, pyFloatField b ik 0 = Except.ok i →
      dimCompute nm b ik ak = Except.error (PyErr.valueError "math domain error")) := by
  have hs : s ≠ "" := ne_empty_of_pyFloat hpa
  have hfa : pyFloatField b ak 1 = Except.ok a := by
    simp [pyFloatField, hlk, hs, hpa]
  constructor
  · intro ha0
    have heff : effectiveAttenuation b ak = Except.ok 1 := by
      simp [effectiveAttenuation, hfa, ha0]
    refine ⟨heff, fun i hi => ?_⟩
    have hlt : ¬ (1 : ℚ) < 0 := by norm_num
    simp [dimCompute, hi, heff, hlt, Rat.cast_one, Real.sqrt_one]
  · intro haneg i hi
    have heff : effectiveAttenuation b ak = Except.ok a := by
      simp [effectiveAttenuation, hfa, ne_of_lt haneg]
    simp [dimCompute, hi, heff, haneg]

/-- Claim C1 witness: attenuation string `"0"` (so `a = 0`) on a row with no
impact field gives effective attenuation 1 and a successful dimension
computation. -/
theorem C1_witness :
    dimCompute "culture" [("culture_attenuation", "0")] "culture_impact"
        "culture_attenuation" =
      Except.ok ((((0 : ℚ)) : ℝ), ⟨"culture", 0, 1, (((0 : ℚ)) : ℝ)⟩) :=
  ((C1_theorem [("culture_attenuation", "0")] "culture" "culture_impact"
      "culture_attenuation" "0" 0 (by decide) (by decide)).1 rfl).2 0 rfl

/-- Claim C3 (counterexample): a non-numeric impact string is not defaulted
to 0 — `float("abc")` raises an uncaught `ValueError`, so
`calculate_civic_score` fails. -/
theorem C3_counterexample :
    calculate_civic_score [("culture_impact", "abc")] =
      Except.error (PyErr.valueError "could not convert string to float: abc") := by
  rfl

/-- Claim C3 (amended): the impact is extracted as 0 when the field is
absent or empty, and the effective attenuation is 1 when the field is
absent, empty, or parses to zero; but a non-empty field whose text does not
parse as a number raises `ValueError` instead of defaulting. -/
theorem C3_theorem (b : Row) (ik ak : String) :
    ((List.lookup ik b = Option.none ∨ List.lookup ik b = some "") →
        pyFloatField b ik 0 = Except.ok 0) ∧
    ((List.lookup ak b = Option.none ∨ List.lookup ak b = some "" ∨
        (∃ s, List.lookup ak b = some s ∧ pyFloat? s = some 0)) →
        effectiveAttenuation b ak = Except.ok 1) ∧
    (∀ s, List.lookup ik b = some s → s ≠ "" → pyFloat? s = Option.none →
        pyFloatField b ik 0 =
          Except.error (PyErr.valueError ("could not convert string to float: " ++ s))) := by
  refine ⟨fun h => ?_, fun h => ?_, fun s hlk hs hp => ?_⟩
  · rcases h with h | h <;> simp [pyFloatField, h]
  · rcases h with h | h | ⟨s, hlk, hp⟩
    · simp [effectiveAttenuation, pyFloatField, h]
    · simp [effectiveAttenuation, pyFloatField, h]
    · have hs : s ≠ "" := ne_empty_of_pyFloat hp
      simp [effectiveAttenuation, pyFloatField, hlk, hs, hp]
  · simp [pyFloatField, hlk, hs, hp]

/-- Claim C3 witness: on the row `[("culture_attenuation", "0")]` the impact
field is absent (extracted as 0) and the attenuation parses to zero
(effective attenuation 1). -/
theorem C3_witness :
    pyFloatField [("culture_attenuation", "0")] "culture_impact" 0 = Except.ok 0 ∧
    effectiveAttenuation [("culture_attenuation", "0")] "culture_attenuation" =
      Except.ok 1 :=
  ⟨(C3_theorem [("culture_attenuation", "0")] "culture_impact" "culture_attenuation").1
      (Or.inl (by decide)),
   (C3_theorem [("culture_attenuation", "0")] "culture_impact" "culture_attenuation").2.1
      (Or.inr (Or.inr ⟨"0", by decide, by decide⟩))⟩

/-! ## Structure of the calculator loop -/

theorem dimCompute_shape {nm : String} {b : Row} {ik ak : String} {w : ℝ} {l : BLine}
    (h : dimCompute nm b ik ak = Except.ok (w, l)) :
    l.dimension = nm ∧ w = l.weighted ∧
    l.weighted = ((l.impact : ℚ) : ℝ) / Real.sqrt ((l.attenuation : ℚ) : ℝ) := by
  cases hi : pyFloatField b ik 0 with
  | error e => simp only [dimCompute, hi] at h; exact Except.noConfusion h
  | ok i =>
    cases ha : effectiveAttenuation b ak with
    | error e => simp only [dimCompute, hi, ha] at h; exact Except.noConfusion h
    | ok a =>
      simp only [dimCompute, hi, ha] at h
      by_cases hlt : a < 0
      · rw [if_pos hlt] at h; exact Except.noConfusion h
      · rw [if_neg hlt] at h
        injection h with h2
        rw [Prod.ext_iff] at h2
        obtain ⟨hw, hl⟩ := h2
        subst hl
        subst hw
        exact ⟨rfl, rfl, rfl⟩

theorem calcLoop_ok (ds : List (String × String × String)) (b : Row)
    (acc : ℝ × List BLine) (s : ℝ) (br : List BLine)
    (h : calcLoop b ds acc = Except.ok (s, br)) :
    ∃ nl : List BLine, br = acc.2 ++ nl ∧
      s = acc.1 + (nl.map BLine.weighted).sum ∧
      nl.map BLine.dimension = ds.map Prod.fst ∧
      ∀ l ∈ nl, l.weighted = ((l.impact : ℚ) : ℝ) / Real.sqrt ((l.attenuation : ℚ) : ℝ) := by
  induction ds generalizing acc with
  | nil =>
    simp only [calcLoop] at h
    injection h with h2
    rw [Prod.ext_iff] at h2
    obtain ⟨hs, hbr⟩ := h2
    exact ⟨[], by simpa using hbr.symm, by simpa using hs.symm, by simp, by simp⟩
  | cons d ds ih =>
    simp only [calcLoop] at h
    cases hd : dimCompute d.1 b d.2.1 d.2.2 with
    | error e => rw [hd] at h; exact Except.noConfusion h
    | ok wl =>
      rw [hd] at h
      obtain ⟨nl, hbr, hs, hnames, hall⟩ := ih (acc.1 + wl.1, acc.2 ++ [wl.2]) h
      obtain ⟨hdim, hw, hweq⟩ := dimCompute_shape hd
      refine ⟨wl.2 :: nl, ?_, ?_, ?_, ?_⟩
      · simpa [List.append_assoc] using hbr
      · rw [hs]
        simp only [List.map_cons, List.sum_cons, ← hw]
        ring
      · simp [hnames, hdim]
      · intro l hl
        rcases List.mem_cons.mp hl with rfl | hl
        · exact hweq
        · exact hall l hl

theorem roundHalfEven_intCast (n : ℤ) : roundHalfEven ((n : ℤ) : ℝ) = n := by
  unfold roundHalfEven
  rw [Int.fract_intCast]
  rw [if_pos (by norm_num)]
  exact Int.floor_intCast n

theorem pyRound1_five : pyRound1 5 = 5 := by
  unfold pyRound1
  rw [show (10 : ℝ) * 5 = ((50 : ℤ) : ℝ) by norm_num, roundHalfEven_intCast]
  norm_num

theorem pyRound1_zero : pyRound1 0 = 0 := by
  unfold pyRound1
  rw [show (10 : ℝ) * 0 = ((0 : ℤ) : ℝ) by norm_num, roundHalfEven_intCast]
  norm_num

/-- Evaluation rule for one successful dimension. -/
theorem dimCompute_ok_eval (nm : String) (b : Row) (ik ak : String) (i a : ℚ)
    (hi : pyFloatField b ik 0 = Except.ok i)
    (ha : effectiveAttenuation b ak = Except.ok a) (hlt : ¬ a < 0) (w : ℝ)
    (hw : ((i : ℚ) : ℝ) / Real.sqrt ((a : ℚ) : ℝ) = w) :
    dimCompute nm b ik ak = Except.ok (w, ⟨nm, i, a, w⟩) := by
  simp [dimCompute, hi, ha, hlt, hw]

/-- A dimension whose impact extracts to 0 and whose attenuation is
effectively 1 contributes `0 / sqrt(1) = 0`. -/
theorem dimCompute_zero (nm : String) (b : Row) (ik ak : String)
    (hi : pyFloatField b ik 0 = Except.ok 0)
    (ha : effectiveAttenuation b ak = Except.ok 1) :
    dimCompute nm b ik ak = Except.ok (0, ⟨nm, 0, 1, 0⟩) := by
  refine dimCompute_ok_eval nm b ik ak 0 1 hi ha (by norm_num) 0 ?_
  simp [Real.sqrt_one]

/-- The breakdown of a row whose only CARENS data is culture impact 10 with
attenuation 4: weighted contribution `10 / sqrt(4) = 5`, the other five
dimensions defaulted to impact 0, attenuation 1, contribution 0. -/
def exBreakdown : List BLine :=
  [⟨"culture", 10, 4, 5⟩, ⟨"affordability", 0, 1, 0⟩, ⟨"resilience", 0, 1, 0⟩,
   ⟨"environment", 0, 1, 0⟩, ⟨"noise", 0, 1, 0⟩, ⟨"safety", 0, 1, 0⟩]

theorem sqrt_four_real : Real.sqrt (((4 : ℚ) : ℝ)) = 2 := by
  rw [show ((4 : ℚ) : ℝ) = 2 ^ 2 by norm_num]
  exact Real.sqrt_sq (by norm_num)

theorem calc_ex :
    calculate_civic_score [("culture_impact", "10"), ("culture_attenuation", "4")] =
      Except.ok (5, exBreakdown) := by
  have e10 : (mkRat 10 1 : ℚ) = 10 := by decide
  have e4 : (mkRat 4 1 : ℚ) = 4 := by decide
  have hi1 : pyFloatField [("culture_impact", "10"), ("culture_attenuation", "4")]
      "culture_impact" 0 = Except.ok 10 := by
    have h : pyFloatField [("culture_impact", "10"), ("culture_attenuation", "4")]
        "culture_impact" 0 = Except.ok (mkRat 10 1) := rfl
    rwa [e10] at h
  have ha1 : effectiveAttenuation [("culture_impact", "10"), ("culture_attenuation", "4")]
      "culture_attenuation" = Except.ok 4 := by
    have h : effectiveAttenuation [("culture_impact", "10"), ("culture_attenuation", "4")]
        "culture_attenuation" = Except.ok (mkRat 4 1) := rfl
    rwa [e4] at h
  have hd1 : dimCompute "culture" [("culture_impact", "10"), ("culture_attenuation", "4")]
      "culture_impact" "culture_attenuation" = Except.ok (5, ⟨"culture", 10, 4, 5⟩) := by
    refine dimCompute_ok_eval _ _ _ _ 10 4 hi1 ha1 (by norm_num) 5 ?_
    rw [sqrt_four_real]
    norm_num
  have hz : ∀ nm ik ak : String, ik ≠ "culture_impact" → ak ≠ "culture_attenuation" →
      List.lookup ik [("culture_impact", "10"), ("culture_attenuation", "4")] = Option.none →
      List.lookup ak [("culture_impact", "10"), ("culture_attenuation", "4")] = Option.none →
      dimCompute nm [("culture_impact", "10"), ("culture_attenuation", "4")] ik ak =
        Except.ok (0, ⟨nm, 0, 1, 0⟩) := by
    intro nm ik ak _ _ hik hak
    exact dimCompute_zero nm _ ik ak (by simp [pyFloatField, hik])
      (by simp [effectiveAttenuation, pyFloatField, hak])
  have hd2 := hz "affordability" "affordability_impact" "affordability_attenuation"
    (by decide) (by decide) (by decide) (by decide)
  have hd3 := hz "resilience" "resilience_impact" "resilience_attenuation"
    (by decide) (by decide) (by decide) (by decide)
  have hd4 := hz "environment" "environment_impact" "environment_attenuation"
    (by decide) (by decide) (by decide) (by decide)
  have hd5 := hz "noise" "noise_impact" "noise_attenuation"
    (by decide) (by decide) (by decide) (by decide)
  have hd6 := hz "safety" "safety_impact" "safety_attenuation"
    (by decide) (by decide) (by decide) (by decide)
  have h5 : pyRound1 ((0 : ℝ) + 5 + 0 + 0 + 0 + 0 + 0) = 5 := by
    norm_num [pyRound1_five]
  simp only [calculate_civic_score, dimensions, calcLoop, hd1, hd2, hd3, hd4, hd5, hd6,
    exBreakdown, List.nil_append, List.singleton_append, List.cons_append, h5]

/-- Claim C6: on success, `calculate_civic_score` returns the rounded sum of
the per-dimension contributions `impact / sqrt(attenuation)` taken in the
fixed order culture, affordability, resilience, environment, noise, safety
(the breakdown lists exactly those six dimensions in that order, and the
score is `pyRound1` of the sum of their weighted values); in particular
culture impact 10 with attenuation 4 and all other dimensions absent yields
civic score 5.0. -/
theorem C6_theorem :
    (∀ (b : Row) (s : ℝ) (br : List BLine),
      calculate_civic_score b = Except.ok (s, br) →
        br.map BLine.dimension =
          ["culture", "affordability", "resilience", "environment", "noise", "safety"] ∧
        s = pyRound1 ((br.map BLine.weighted).sum) ∧
        ∀ l ∈ br, l.weighted = ((l.impact : ℚ) : ℝ) / Real.sqrt ((l.attenuation : ℚ) : ℝ)) ∧
    calculate_civic_score [("culture_impact", "10"), ("culture_attenuation", "4")] =
      Except.ok (5, exBreakdown) := by
  refine ⟨?_, calc_ex⟩
  intro b s br h
  cases hl : calcLoop b dimensions (0, []) with
  | error e => simp only [calculate_civic_score, hl] at h; exact Except.noConfusion h
  | ok sb =>
    simp only [calculate_civic_score, hl] at h
    injection h with h2
    have hs := congrArg Prod.fst h2
    have hbr := congrArg Prod.snd h2
    simp only at hs hbr
    obtain ⟨nl, hnl, hsum, hnames, hall⟩ :=
      calcLoop_ok dimensions b (0, []) sb.1 sb.2 (by simpa using hl)
    subst hbr
    refine ⟨?_, ?_, ?_⟩
    · rw [hnl]
      simpa [dimensions] using hnames
    · rw [← hs, hsum, hnl]
      simp
    · intro l hm
      rw [hnl] at hm
      exact hall l (by simpa using hm)

/-- Claim C6 witness: the breakdown of the concrete 10-over-4 example lists
the six dimensions in the fixed order, and its rounded weighted sum is the
returned score 5.0. -/
theorem C6_witness :
    exBreakdown.map BLine.dimension =
      ["culture", "affordability", "resilience", "environment", "noise", "safety"] ∧
    (5 : ℝ) = pyRound1 ((exBreakdown.map BLine.weighted).sum) := by
  have h := C6_theorem
  have h2 := h.1 _ 5 exBreakdown h.2
  exact ⟨h2.1, h2.2.1⟩

/-! ## The catalog builder (csv-to-json.py) -/

/-- The `economics` group of an entity record. -/
structure EconGroup where
  buildCost : PyValue
  constructionDays : PyValue
  maxRevenue : PyValue
  maintenanceCost : PyValue
  decayRate : PyValue
deriving DecidableEq, Inhabited, Repr

/-- The `resources` group: six provided/required pairs. -/
structure ResGroup where
  jobsProvided : PyValue
  jobsRequired : PyValue
  energyProvided : PyValue
  energyRequired : PyValue
  educationProvided : PyValue
  educationRequired : PyValue
  foodProvided : PyValue
  foodRequired : PyValue
  housingProvided : PyValue
  housingRequired : PyValue
  healthcareProvided : PyValue
  healthcareRequired : PyValue
deriving DecidableEq, Inhabited, Repr

/-- One livability dimension as stored in the catalog. -/
structure LivDim where
  impact : PyValue
  attenuation : PyValue
deriving DecidableEq, Inhabited, Repr

/-- The `livability` group: the six CARENS dimensions. -/
structure LivGroup where
  culture : LivDim
  affordability : LivDim
  resilience : LivDim
  environment : LivDim
  noise : LivDim
  safety : LivDim
deriving DecidableEq, Inhabited, Repr

/-- The `graphics` group derived from `graphicsFile`. -/
structure GraphicsGroup where
  filename : String
  path : String
  fallbackPath : String
deriving DecidableEq, Inhabited, Repr

/-- An entity record of the catalog (one building object of the output
JSON); `imagesBuilt` is the `images.built` field. -/
structure Building where
  id : String
  name : String
  category : String
  description : String
  graphicsFile : String
  isDefault : PyValue
  civicScore : PyValue
  economics : EconGroup
  resources : ResGroup
  livability : LivGroup
  graphics : GraphicsGroup
  imagesBuilt : String
deriving DecidableEq, Inhabited, Repr

/-- Characters of the last `/`-separated segment (Python
`s.split('/')[-1]`). -/
def lastSegAux : List Char → List Char → List Char
  | [], acc => acc
  | c :: cs, acc => if c = '/' then lastSegAux cs [] else lastSegAux cs (acc ++ [c])

/-- Python `s.split('/')[-1]`. -/
def lastSegment (s : String) : String :=
  String.mk (lastSegAux s.data [])

/-- The 36 columns `csv_to_buildings_json` reads from every non-skipped row,
in access order. -/
def requiredKeys : List String :=
  ["id", "name", "category", "description", "graphicsFile", "isDefault", "civicScore",
   "buildCost", "constructionDays", "maxRevenue", "maintenanceCost", "decayRate",
   "jobsProvided", "jobsRequired", "energyProvided", "energyRequired",
   "educationProvided", "educationRequired", "foodProvided", "foodRequired",
   "housingProvided", "housingRequired", "healthcareProvided", "healthcareRequired",
   "culture_impact", "culture_attenuation", "affordability_impact", "affordability_attenuation",
   "resilience_impact", "resilience_attenuation", "environment_impact", "environment_attenuation",
   "noise_impact", "noise_attenuation", "safety_impact", "safety_attenuation"]
/-- Embedding of the row-to-record assembly inside `csv_to_buildings_json`
(csv-to-json.py, lines 35-103): every field access `row[k]` raises
`KeyError k` when the column is absent; accesses happen in the source's
dict-literal order.  `graphics.filename` is the last `/`-separated segment
of `graphicsFile`. -/
def mkBuilding (r : Row) : Except PyErr Building :=
  match List.lookup "id" r with
  | Option.none => Except.error (PyErr.keyError "id")
  | some v1 =>
  match List.lookup "name" r with
  | Option.none => Except.error (PyErr.keyError "name")
  | some v2 =>
  match List.lookup "category" r with
  | Option.none => Except.error (PyErr.keyError "category")
  | some v3 =>
  match List.lookup "description" r with
  | Option.none => Except.error (PyErr.keyError "description")
  | some v4 =>
  match List.lookup "graphicsFile" r with
  | Option.none => Except.error (PyErr.keyError "graphicsFile")
  | some v5 =>
  match List.lookup "isDefault" r with
  | Option.none => Except.error (PyErr.keyError "isDefault")
  | some v6 =>
  match List.lookup "civicScore" r with
  | Option.none => Except.error (PyErr.keyError "civicScore")
  | some v7 =>
  match List.lookup "buildCost" r with
  | Option.none => Except.error (PyErr.keyError "buildCost")
  | some v8 =>
  match List.lookup "constructionDays" r with
  | Option.none => Except.error (PyErr.keyError "constructionDays")
  | some v9 =>
  match List.lookup "maxRevenue" r with
  | Option.none => Except.error (PyErr.keyError "maxRevenue")
  | some v10 =>
  match List.lookup "maintenanceCost" r with
  | Option.none => Except.error (PyErr.keyError "maintenanceCost")
  | some v11 =>
  match List.lookup "decayRate" r with
  | Option.none => Except.error (PyErr.keyError "decayRate")
  | some v12 =>
  match List.lookup "jobsProvided" r with
  | Option.none => Except.error (PyErr.keyError "jobsProvided")
  | some v13 =>
  match List.lookup "jobsRequired" r with
  | Option.none => Except.error (PyErr.keyError "jobsRequired")
  | some v14 =>
  match List.lookup "energyProvided" r with
  | Option.none => Except.error (PyErr.keyError "energyProvided")
  | some v15 =>
  match List.lookup "energyRequired" r with
  | Option.none => Except.error (PyErr.keyError "energyRequired")
  | some v16 =>
  match List.lookup "educationProvided" r with
  | Option.none => Except.error (PyErr.keyError "educationProvided")
  | some v17 =>
  match List.lookup "educationRequired" r with
  | Option.none => Except.error (PyErr.keyError "educationRequired")
  | some v18 =>
  match List.lookup "foodProvided" r with
  | Option.none => Except.error (PyErr.keyError "foodProvided")
  | some v19 =>
  match List.lookup "foodRequired" r with
  | Option.none => Except.error (PyErr.keyError "foodRequired")
  | some v20 =>
  match List.lookup "housingProvided" r with
  | Option.none => Except.error (PyErr.keyError "housingProvided")
  | some v21 =>
  match List.lookup "housingRequired" r with
  | Option.none => Except.error (PyErr.keyError "housingRequired")
  | some v22 =>
  match List.lookup "healthcareProvided" r with
  | Option.none => Except.error (PyErr.keyError "healthcareProvided")
  | some v23 =>
  match List.lookup "healthcareRequired" r with
  | Option.none => Except.error (PyErr.keyError "healthcareRequired")
  | some v24 =>
  match List.lookup "culture_impact" r with
  | Option.none => Except.error (PyErr.keyError "culture_impact")
  | some v25 =>
  match List.lookup "culture_attenuation" r with
  | Option.none => Except.error (PyErr.keyError "culture_attenuation")
  | some v26 =>
  match List.lookup "affordability_impact" r with
  | Option.none => Except.error (PyErr.keyError "affordability_impact")
  | some v27 =>
  match List.lookup "affordability_attenuation" r with
  | Option.none => Except.error (PyErr.keyError "affordability_attenuation")
  | some v28 =>
  match List.lookup "resilience_impact" r with
  | Option.none => Except.error (PyErr.keyError "resilience_impact")
  | some v29 =>
  match List.lookup "resilience_attenuation" r with
  | Option.none => Except.error (PyErr.keyError "resilience_attenuation")
  | some v30 =>
  match List.lookup "environment_impact" r with
  | Option.none => Except.error (PyErr.keyError "environment_impact")
  | some v31 =>
  match List.lookup "environment_attenuation" r with
  | Option.none => Except.error (PyErr.keyError "environment_attenuation")
  | some v32 =>
  match List.lookup "noise_impact" r with
  | Option.none => Except.error (PyErr.keyError "noise_impact")
  | some v33 =>
  match List.lookup "noise_attenuation" r with
  | Option.none => Except.error (PyErr.keyError "noise_attenuation")
  | some v34 =>
  match List.lookup "safety_impact" r with
  | Option.none => Except.error (PyErr.keyError "safety_impact")
  | some v35 =>
  match List.lookup "safety_attenuation" r with
  | Option.none => Except.error (PyErr.keyError "safety_attenuation")
  | some v36 =>
  Except.ok {
    id := v1, name := v2, category := v3, description := v4, graphicsFile := v5,
    isDefault := parse_value v6, civicScore := parse_value v7,
    economics := ⟨parse_value v8, parse_value v9, parse_value v10, parse_value v11, parse_value v12⟩,
    resources := ⟨parse_value v13, parse_value v14, parse_value v15, parse_value v16,
      parse_value v17, parse_value v18, parse_value v19, parse_value v20, parse_value v21,
      parse_value v22, parse_value v23, parse_value v24⟩,
    livability := ⟨⟨parse_value v25, parse_value v26⟩, ⟨parse_value v27, parse_value v28⟩,
      ⟨parse_value v29, parse_value v30⟩, ⟨parse_value v31, parse_value v32⟩,
      ⟨parse_value v33, parse_value v34⟩, ⟨parse_value v35, parse_value v36⟩⟩,
    graphics := ⟨lastSegment v5, v5, "assets/buildings/default.svg"⟩,
    imagesBuilt := v5 }

/-- The record built from a row when every required column is present,
made total with a default record (used only to state equations). -/
def mkBuildingD (r : Row) : Building :=
  ((mkBuilding r).toOption).getD default

set_option maxHeartbeats 1600000 in
/-- Either every required column is present and `mkBuilding` succeeds with
the record `mkBuildingD r` (whose category and civicScore come from the
row's fields), or it fails with a `KeyError` naming a required column that
is missing from the row. -/
theorem mkBuilding_cases (r : Row) :
    (mkBuilding r = Except.ok (mkBuildingD r) ∧
      (∀ k ∈ requiredKeys, (List.lookup k r).isSome) ∧
      (mkBuildingD r).category = (List.lookup "category" r).getD "" ∧
      (mkBuildingD r).civicScore = parse_value ((List.lookup "civicScore" r).getD "")) ∨
    (∃ k, k ∈ requiredKeys ∧ List.lookup k r = Option.none ∧
      mkBuilding r = Except.error (PyErr.keyError k)) := by
  cases h1 : List.lookup "id" r
  · exact Or.inr ⟨"id", by decide, h1, by simp [mkBuilding, *]⟩
  rename_i v1
  cases h2 : List.lookup "name" r
  · exact Or.inr ⟨"name", by decide, h2, by simp [mkBuilding, *]⟩
  rename_i v2
  cases h3 : List.lookup "category" r
  · exact Or.inr ⟨"category", by decide, h3, by simp [mkBuilding, *]⟩
  rename_i v3
  cases h4 : List.lookup "description" r
  · exact Or.inr ⟨"description", by decide, h4, by simp [mkBuilding, *]⟩
  rename_i v4
  cases h5 : List.lookup "graphicsFile" r
  · exact Or.inr ⟨"graphicsFile", by decide, h5, by simp [mkBuilding, *]⟩
  rename_i v5
  cases h6 : List.lookup "isDefault" r
  · exact Or.inr ⟨"isDefault", by decide, h6, by simp [mkBuilding, *]⟩
  rename_i v6
  cases h7 : List.lookup "civicScore" r
  · exact Or.inr ⟨"civicScore", by decide, h7, by simp [mkBuilding, *]⟩
  rename_i v7
  cases h8 : List.lookup "buildCost" r
  · exact Or.inr ⟨"buildCost", by decide, h8, by simp [mkBuilding, *]⟩
  rename_i v8
  cases h9 : List.lookup "constructionDays" r
  · exact Or.inr ⟨"constructionDays", by decide, h9, by simp [mkBuilding, *]⟩
  rename_i v9
  cases h10 : List.lookup "maxRevenue" r
  · exact Or.inr ⟨"maxRevenue", by decide, h10, by simp [mkBuilding, *]⟩
  rename_i v10
  cases h11 : List.lookup "maintenanceCost" r
  · exact Or.inr ⟨"maintenanceCost", by decide, h11, by simp [mkBuilding, *]⟩
  rename_i v11
  cases h12 : List.lookup "decayRate" r
  · exact Or.inr ⟨"decayRate", by decide, h12, by simp [mkBuilding, *]⟩
  rename_i v12
  cases h13 : List.lookup "jobsProvided" r
  · exact Or.inr ⟨"jobsProvided", by decide, h13, by simp [mkBuilding, *]⟩
  rename_i v13
  cases h14 : List.lookup "jobsRequired" r
  · exact Or.inr ⟨"jobsRequired", by decide, h14, by simp [mkBuilding, *]⟩
  rename_i v14
  cases h15 : List.lookup "energyProvided" r
  · exact Or.inr ⟨"energyProvided", by decide, h15, by simp [mkBuilding, *]⟩
  rename_i v15
  cases h16 : List.lookup "energyRequired" r
  · exact Or.inr ⟨"energyRequired", by decide, h16, by simp [mkBuilding, *]⟩
  rename_i v16
  cases h17 : List.lookup "educationProvided" r
  · exact Or.inr ⟨"educationProvided", by decide, h17, by simp [mkBuilding, *]⟩
  rename_i v17
  cases h18 : List.lookup "educationRequired" r
  · exact Or.inr ⟨"educationRequired", by decide, h18, by simp [mkBuilding, *]⟩
  rename_i v18
  cases h19 : List.lookup "foodProvided" r
  · exact Or.inr ⟨"foodProvided", by decide, h19, by simp [mkBuilding, *]⟩
  rename_i v19
  cases h20 : List.lookup "foodRequired" r
  · exact Or.inr ⟨"foodRequired", by decide, h20, by simp [mkBuilding, *]⟩
  rename_i v20
  cases h21 : List.lookup "housingProvided" r
  · exact Or.inr ⟨"housingProvided", by decide, h21, by simp [mkBuilding, *]⟩
  rename_i v21
  cases h22 : List.lookup "housingRequired" r
  · exact Or.inr ⟨"housingRequired", by decide, h22, by simp [mkBuilding, *]⟩
  rename_i v22
  cases h23 : List.lookup "healthcareProvided" r
  · exact Or.inr ⟨"healthcareProvided", by decide, h23, by simp [mkBuilding, *]⟩
  rename_i v23
  cases h24 : List.lookup "healthcareRequired" r
  · exact Or.inr ⟨"healthcareRequired", by decide, h24, by simp [mkBuilding, *]⟩
  rename_i v24
  cases h25 : List.lookup "culture_impact" r
  · exact Or.inr ⟨"culture_impact", by decide, h25, by simp [mkBuilding, *]⟩
  rename_i v25
  cases h26 : List.lookup "culture_attenuation" r
  · exact Or.inr ⟨"culture_attenuation", by decide, h26, by simp [mkBuilding, *]⟩
  rename_i v26
  cases h27 : List.lookup "affordability_impact" r
  · exact Or.inr ⟨"affordability_impact", by decide, h27, by simp [mkBuilding, *]⟩
  rename_i v27
  cases h28 : List.lookup "affordability_attenuation" r
  · exact Or.inr ⟨"affordability_attenuation", by decide, h28, by simp [mkBuilding, *]⟩
  rename_i v28
  cases h29 : List.lookup "resilience_impact" r
  · exact Or.inr ⟨"resilience_impact", by decide, h29, by simp [mkBuilding, *]⟩
  rename_i v29
  cases h30 : List.lookup "resilience_attenuation" r
  · exact Or.inr ⟨"resilience_attenuation", by decide, h30, by simp [mkBuilding, *]⟩
  rename_i v30
  cases h31 : List.lookup "environment_impact" r
  · exact Or.inr ⟨"environment_impact", by decide, h31, by simp [mkBuilding, *]⟩
  rename_i v31
  cases h32 : List.lookup "environment_attenuation" r
  · exact Or.inr ⟨"environment_attenuation", by decide, h32, by simp [mkBuilding, *]⟩
  rename_i v32
  cases h33 : List.lookup "noise_impact" r
  · exact Or.inr ⟨"noise_impact", by decide, h33, by simp [mkBuilding, *]⟩
  rename_i v33
  cases h34 : List.lookup "noise_attenuation" r
  · exact Or.inr ⟨"noise_attenuation", by decide, h34, by simp [mkBuilding, *]⟩
  rename_i v34
  cases h35 : List.lookup "safety_impact" r
  · exact Or.inr ⟨"safety_impact", by decide, h35, by simp [mkBuilding, *]⟩
  rename_i v35
  cases h36 : List.lookup "safety_attenuation" r
  · exact Or.inr ⟨"safety_attenuation", by decide, h36, by simp [mkBuilding, *]⟩
  rename_i v36
  refine Or.inl ⟨?_, ?_, ?_, ?_⟩
  · simp [mkBuilding, mkBuildingD, Except.toOption, *]
  · intro k hk
    simp only [requiredKeys, List.mem_cons, List.not_mem_nil, or_false] at hk
    rcases hk with (rfl|rfl|rfl|rfl|rfl|rfl|rfl|rfl|rfl|rfl|rfl|rfl|rfl|rfl|rfl|rfl|rfl|rfl|rfl|rfl|rfl|rfl|rfl|rfl|rfl|rfl|rfl|rfl|rfl|rfl|rfl|rfl|rfl|rfl|rfl|rfl) <;> simp [*]
  · simp [mkBuilding, mkBuildingD, Except.toOption, *]
  · simp [mkBuilding, mkBuildingD, Except.toOption, *]

/-- The catalog under construction: category name to records, in insertion
order (Python dict semantics). -/
abbrev Catalog := List (String × List Building)

/-- `buildings_by_category[category].append(building)`, creating the
category's list on first occurrence: an existing key keeps its position and
its list grows at the end; a new key is appended at the end. -/
def catalogAdd : Catalog → String → Building → Catalog
  | [], c, b => [(c, [b])]
  | (c', bs) :: t, c, b =>
    if c' = c then (c', bs ++ [b]) :: t else (c', bs) :: catalogAdd t c b

/-- The row loop of `csv_to_buildings_json`: skip rows with empty `id`,
assemble each remaining row into a record, and group records by the record's
category. -/
def csvAux : List Row → Catalog → Except PyErr Catalog
  | [], acc => Except.ok acc
  | r :: rs, acc =>
    match List.lookup "id" r with
    | Option.none => Except.error (PyErr.keyError "id")
    | some idv =>
      if idv = "" then csvAux rs acc
      else
        match mkBuilding r with
        | Except.error e => Except.error e
        | Except.ok b => csvAux rs (catalogAdd acc b.category b)

/-- Embedding of `csv_to_buildings_json` (csv-to-json.py, lines 24–111),
abstracted over the already-parsed row list (the file/CSV layer is outside
the model; `main` writes the JSON only when this returns without raising). -/
def csv_to_buildings_json (rows : List Row) : Except PyErr Catalog :=
  csvAux rows []

/-- A row survives the `if not row['id']: continue` skip. -/
def keptRow (r : Row) : Bool :=
  ((List.lookup "id" r).getD "") != ""

/-- The category string of a row (total form; rows reaching `mkBuilding`
always have the column). -/
def catOf (r : Row) : String :=
  (List.lookup "category" r).getD ""

/-- The record list of a category in a catalog (empty if the key is
absent). -/
def lookupList (c : String) (cat : Catalog) : List Building :=
  (List.lookup c cat).getD []

/-- Category names in order of first occurrence. -/
def firstSeenKeys (l : List String) : List String :=
  l.foldl (fun ks c => if c ∈ ks then ks else ks ++ [c]) []

/-- Total number of records across all categories. -/
def totalCount (cat : Catalog) : Nat :=
  (cat.map (fun p => p.2.length)).sum

/-- The outcome is a `KeyError` naming one of the required columns. -/
def namesRequiredMissing : Except PyErr Catalog → Bool
  | Except.error (PyErr.keyError k) => requiredKeys.contains k
  | _ => false

theorem catalogAdd_keys (cat : Catalog) (c : String) (b : Building) :
    (catalogAdd cat c b).map Prod.fst =
      if c ∈ cat.map Prod.fst then cat.map Prod.fst else cat.map Prod.fst ++ [c] := by
  induction cat with
  | nil => simp [catalogAdd]
  | cons p t ih =>
    obtain ⟨c', bs⟩ := p
    by_cases h : c' = c
    · simp [catalogAdd, h]
    · by_cases h2 : c ∈ t.map Prod.fst <;>
        simp [catalogAdd, h, ih, h2, Ne.symm h]

theorem catalogAdd_lookupList (cat : Catalog) (c c' : String) (b : Building) :
    lookupList c' (catalogAdd cat c b) =
      if c' = c then lookupList c' cat ++ [b] else lookupList c' cat := by
  induction cat with
  | nil =>
    by_cases h : c' = c
    · simp [catalogAdd, lookupList, List.lookup, h]
    · have hne : (c' == c) = false := by simpa [beq_eq_false_iff_ne] using h
      simp [catalogAdd, lookupList, List.lookup, hne, h]
  | cons p t ih =>
    obtain ⟨a, bs⟩ := p
    by_cases hac : a = c
    · subst hac
      by_cases h : c' = a
      · subst h
        simp [catalogAdd, lookupList, List.lookup]
      · have hne : (c' == a) = false := by simpa [beq_eq_false_iff_ne] using h
        simp [catalogAdd, lookupList, List.lookup, hne, h]
    · by_cases h : c' = a
      · subst h
        have hcc : ¬ c' = c := fun hh => hac hh
        simp [catalogAdd, hac, lookupList, List.lookup, hcc]
      · have hne : (c' == a) = false := by simpa [beq_eq_false_iff_ne] using h
        simp only [catalogAdd, hac, if_false, ite_false, lookupList, List.lookup, hne]
        simpa [lookupList, List.lookup] using ih

theorem catalogAdd_totalCount (cat : Catalog) (c : String) (b : Building) :
    totalCount (catalogAdd cat c b) = totalCount cat + 1 := by
  induction cat with
  | nil => simp [catalogAdd, totalCount]
  | cons p t ih =>
    obtain ⟨a, bs⟩ := p
    by_cases h : a = c
    · simp [catalogAdd, h, totalCount]
      ring
    · simp only [catalogAdd, h, if_false, ite_false, totalCount, List.map_cons, List.sum_cons]
      have := ih
      simp only [totalCount] at this
      rw [this]
      ring

theorem csvAux_ok (rs : List Row) (acc : Catalog) (cat : Catalog)
    (h : csvAux rs acc = Except.ok cat) :
    cat.map Prod.fst = ((rs.filter keptRow).map catOf).foldl
        (fun ks c => if c ∈ ks then ks else ks ++ [c]) (acc.map Prod.fst) ∧
    (∀ c, lookupList c cat =
      lookupList c acc ++
        (((rs.filter keptRow).filter (fun r => catOf r == c)).map mkBuildingD)) ∧
    totalCount cat = totalCount acc + (rs.filter keptRow).length ∧
    (∀ r ∈ rs, keptRow r = true → mkBuilding r = Except.ok (mkBuildingD r)) := by
  induction rs generalizing acc with
  | nil =>
    simp only [csvAux] at h
    injection h with h2
    subst h2
    simp
  | cons r rs ih =>
    simp only [csvAux] at h
    cases h1 : List.lookup "id" r with
    | none => simp only [h1] at h; exact Except.noConfusion h
    | some idv =>
      simp only [h1] at h
      by_cases hid : idv = ""
      · rw [if_pos hid] at h
        have hk : keptRow r = false := by simp [keptRow, h1, hid]
        obtain ⟨ha, hb, hc, hd⟩ := ih acc h
        refine ⟨?_, ?_, ?_, ?_⟩
        · simpa [hk] using ha
        · intro c
          simpa [hk] using hb c
        · simpa [hk] using hc
        · intro r' hr' hkept
          rcases List.mem_cons.mp hr' with rfl | hm
          · rw [hk] at hkept; exact Bool.noConfusion hkept
          · exact hd r' hm hkept
      · rw [if_neg hid] at h
        cases hm : mkBuilding r with
        | error e => simp only [hm] at h; exact Except.noConfusion h
        | ok b =>
          simp only [hm] at h
          have hk : keptRow r = true := by simp [keptRow, h1, hid]
          have hbD : mkBuildingD r = b := by simp [mkBuildingD, hm, Except.toOption]
          have hcat : b.category = catOf r := by
            rcases mkBuilding_cases r with ⟨hb', _, hcat', _⟩ | ⟨k, _, _, herr⟩
            · rw [hm] at hb'
              injection hb' with hbb
              rw [hbb]
              simpa [catOf] using hcat'
            · rw [herr] at hm; exact Except.noConfusion hm
          obtain ⟨ha, hb2, hc, hd⟩ := ih (catalogAdd acc b.category b) h
          refine ⟨?_, ?_, ?_, ?_⟩
          · rw [ha, catalogAdd_keys, hcat]
            simp [hk]
          · intro c
            rw [hb2 c, catalogAdd_lookupList]
            by_cases hcc : c = b.category
            · rw [if_pos hcc]
              have hcr : (catOf r == c) = true := by
                simp [← hcat, hcc]
              simp [hk, hcr, hbD, List.append_assoc]
            · rw [if_neg hcc]
              have hcr : (catOf r == c) = false := by
                simp [← hcat]
                exact fun hh => hcc hh.symm
              simp [hk, hcr]
          · rw [hc, catalogAdd_totalCount]
            simp [hk]
            ring
          · intro r' hr' hkept
            rcases List.mem_cons.mp hr' with rfl | hm'
            · rw [hm, hbD]
            · exact hd r' hm' hkept

/-- Claim C4: whenever the build succeeds, the catalog's category keys are
exactly the categories of the kept (non-empty-id) rows in first-seen order;
each category's record list is the records of the kept rows of that
category, in input row order; and the total number of records equals the
number of kept rows — no row lost or duplicated, and rows with empty id
appear in no category. -/
theorem C4_theorem (rows : List Row) (cat : Catalog)
    (h : csv_to_buildings_json rows = Except.ok cat) :
    cat.map Prod.fst = firstSeenKeys ((rows.filter keptRow).map catOf) ∧
    (∀ c, lookupList c cat =
      ((rows.filter keptRow).filter (fun r => catOf r == c)).map mkBuildingD) ∧
    totalCount cat = (rows.filter keptRow).length := by
  obtain ⟨ha, hb, hc, _⟩ := csvAux_ok rows [] cat h
  refine ⟨by simpa [firstSeenKeys] using ha, fun c => ?_, by simpa [totalCount] using hc⟩
  simpa [lookupList, List.lookup] using hb c

/-- The all-kept sample row used by the catalog witnesses: every required
column present, culture impact 10 with attenuation 4, category `"c"`. -/
def wrow : Row :=
  [("id", "a"), ("name", "n"), ("category", "c"), ("description", "d"),
   ("graphicsFile", "assets/x/y.svg"), ("isDefault", "true"), ("civicScore", ""),
   ("buildCost", "100"), ("constructionDays", "5"), ("maxRevenue", "10"),
   ("maintenanceCost", "1"), ("decayRate", "0.1"),
   ("jobsProvided", "2"), ("jobsRequired", "0"), ("energyProvided", "0"),
   ("energyRequired", "1"), ("educationProvided", "0"), ("educationRequired", "0"),
   ("foodProvided", "0"), ("foodRequired", "0"), ("housingProvided", "0"),
   ("housingRequired", "0"), ("healthcareProvided", "0"), ("healthcareRequired", "0"),
   ("culture_impact", "10"), ("culture_attenuation", "4"),
   ("affordability_impact", ""), ("affordability_attenuation", ""),
   ("resilience_impact", ""), ("resilience_attenuation", ""),
   ("environment_impact", ""), ("environment_attenuation", ""),
   ("noise_impact", ""), ("noise_attenuation", ""),
   ("safety_impact", ""), ("safety_attenuation", "")]

/-- Claim C4 witness: building from the single well-formed row `wrow` yields
the one-category catalog keyed `"c"`. -/
theorem C4_witness :
    ([("c", [mkBuildingD wrow])] : Catalog).map Prod.fst = ["c"] := by
  have h := C4_theorem [wrow] [("c", [mkBuildingD wrow])] rfl
  exact h.1.trans (by decide)

theorem csvAux_missing (rs : List Row) (acc : Catalog) (k : String)
    (hk : k ∈ requiredKeys) (habs : ∀ r ∈ rs, List.lookup k r = Option.none)
    (hwit : ∃ r ∈ rs, k = "id" ∨ ∃ v, List.lookup "id" r = some v ∧ v ≠ "") :
    namesRequiredMissing (csvAux rs acc) = true := by
  induction rs generalizing acc with
  | nil => simp at hwit
  | cons r rs ih =>
    cases h1 : List.lookup "id" r with
    | none =>
      simp [csvAux, h1, namesRequiredMissing, requiredKeys]
    | some idv =>
      by_cases hid : idv = ""
      · have hwit' : ∃ r' ∈ rs, k = "id" ∨ ∃ v, List.lookup "id" r' = some v ∧ v ≠ "" := by
          rcases hwit with ⟨r', hr', hw⟩
          rcases List.mem_cons.mp hr' with rfl | hm
          · rcases hw with rfl | ⟨v, hv, hvne⟩
            · exact absurd (habs r' (List.mem_cons_self r' rs)) (by simp [h1])
            · rw [h1] at hv
              injection hv with hv2
              exact absurd (hv2 ▸ hid) hvne
          · exact ⟨r', hm, hw⟩
        have := ih acc (fun r' hr' => habs r' (List.mem_cons_of_mem r hr')) hwit'
        simpa [csvAux, h1, hid] using this
      · have hkr : List.lookup k r = Option.none := habs r (List.mem_cons_self r rs)
        rcases mkBuilding_cases r with ⟨_, hall, _, _⟩ | ⟨k', hk', _, herr⟩
        · exact absurd (hall k hk) (by simp [hkr])
        · have hmem : requiredKeys.contains k' = true :=
            List.elem_eq_true_of_mem hk'
          simp [csvAux, h1, hid, herr, namesRequiredMissing]
          exact hk'

theorem csvAux_allPresent (rs : List Row) (acc : Catalog)
    (hall : ∀ r ∈ rs, ∀ k ∈ requiredKeys, (List.lookup k r).isSome) :
    ∃ cat, csvAux rs acc = Except.ok cat := by
  induction rs generalizing acc with
  | nil => exact ⟨acc, rfl⟩
  | cons r rs ih =>
    have hid : (List.lookup "id" r).isSome :=
      hall r (List.mem_cons_self r rs) "id" (by decide)
    obtain ⟨idv, h1⟩ := Option.isSome_iff_exists.mp hid
    have hall' : ∀ r' ∈ rs, ∀ k ∈ requiredKeys, (List.lookup k r').isSome :=
      fun r' hr' => hall r' (List.mem_cons_of_mem r hr')
    by_cases hid0 : idv = ""
    · obtain ⟨cat, hcat⟩ := ih acc hall'
      exact ⟨cat, by simp [csvAux, h1, hid0, hcat]⟩
    · rcases mkBuilding_cases r with ⟨hb, _, _, _⟩ | ⟨k, hk, hnone, _⟩
      · obtain ⟨cat, hcat⟩ := ih (catalogAdd acc (mkBuildingD r).category (mkBuildingD r)) hall'
        exact ⟨cat, by simp [csvAux, h1, hid0, hb, hcat]⟩
      · exact absurd (hall r (List.mem_cons_self r rs) k hk) (by simp [hnone])

/-- Claim C5 (amended): if a required column is entirely absent and the
input has at least one row that would reach the missing access (any row when
the identity column itself is missing; a row with non-empty id otherwise),
the whole build fails with a single `KeyError` naming a required column and
no catalog — not even a partial one — is produced; and when every required
column is present on every row, the build succeeds with every non-skipped
row transformed. -/
theorem C5_theorem :
    (∀ (rows : List Row) (k : String), k ∈ requiredKeys →
      (∀ r ∈ rows, List.lookup k r = Option.none) →
      (∃ r ∈ rows, k = "id" ∨ ∃ v, List.lookup "id" r = some v ∧ v ≠ "") →
      namesRequiredMissing (csv_to_buildings_json rows) = true) ∧
    (∀ rows : List Row,
      (∀ r ∈ rows, ∀ k ∈ requiredKeys, (List.lookup k r).isSome) →
      ∃ cat, csv_to_buildings_json rows = Except.ok cat) :=
  ⟨fun rows k hk habs hwit => csvAux_missing rows [] k hk habs hwit,
   fun rows h => csvAux_allPresent rows [] h⟩

/-- Claim C5 (counterexample): the required column `name` is entirely absent
from the input `[[("id", "")]]`, yet the build does not fail — the lone row
is skipped for its empty id and an (empty) catalog is produced. -/
theorem C5_counterexample :
    ("name" ∈ requiredKeys) ∧
    ([[("id", "")]] : List Row).all (fun r => (List.lookup "name" r).isNone) = true ∧
    csv_to_buildings_json [[("id", "")]] = Except.ok [] :=
  ⟨by decide, by decide, rfl⟩

/-- Claim C5 witness: with required column `name` absent and a non-skipped
row present, the build fails with a `KeyError` naming a required column. -/
theorem C5_witness :
    namesRequiredMissing (csv_to_buildings_json [[("id", "x")]]) = true :=
  C5_theorem.1 [[("id", "x")]] "name" (by decide) (by decide)
    ⟨[("id", "x")], by simp, Or.inr ⟨"x", by decide, by decide⟩⟩

/-! ## The recalculation pass (calculate-civic-scores.py, main) -/

/-- Left-to-right effectful map over rows: the loop body applied in order,
aborting at the first exception. -/
def mapME (f : Row → Except PyErr Row) : List Row → Except PyErr (List Row)
  | [] => Except.ok []
  | r :: rs =>
    match f r with
    | Except.error e => Except.error e
    | Except.ok r' =>
      match mapME f rs with
      | Except.error e => Except.error e
      | Except.ok rs' => Except.ok (r' :: rs')

/-- One iteration of the recalculation loop (calculate-civic-scores.py,
lines 63–74): skip rows with empty id (`building['id']` raising `KeyError`
when the column is absent); otherwise compute the civic score, overwrite the
`civicScore` field with its string rendering (`str(civic_score)`, abstracted
as the `render` parameter), and access `name` and `category` for the
progress printout. -/
noncomputable def recalcRow (render : ℝ → String) (r : Row) : Except PyErr Row :=
  match List.lookup "id" r with
  | Option.none => Except.error (PyErr.keyError "id")
  | some idv =>
    if idv = "" then Except.ok r
    else
      match calculate_civic_score r with
      | Except.error e => Except.error e
      | Except.ok sb =>
        match List.lookup "name" (setField r "civicScore" (render sb.1)) with
        | Option.none => Except.error (PyErr.keyError "name")
        | some _ =>
          match List.lookup "category" (setField r "civicScore" (render sb.1)) with
          | Option.none => Except.error (PyErr.keyError "category")
          | some _ => Except.ok (setField r "civicScore" (render sb.1))

/-- The sort key `float(b['civicScore'])` evaluated for one ranked row. -/
def sortKeyOne (r : Row) : Except PyErr Unit :=
  match List.lookup "civicScore" r with
  | Option.none => Except.error (PyErr.keyError "civicScore")
  | some s =>
    match pyFloat? s with
    | some _ => Except.ok ()
    | Option.none =>
      Except.error (PyErr.valueError ("could not convert string to float: " ++ s))

/-- The review printout sorts the kept rows by `float(b['civicScore'])`;
sorting does not change the rows that get written, but the key evaluation
can raise, so it is modelled as a check over the kept rows. -/
def sortKeyCheck : List Row → Except PyErr Unit
  | [] => Except.ok ()
  | r :: rs =>
    if keptRow r then
      match sortKeyOne r with
      | Except.error e => Except.error e
      | Except.ok _ => sortKeyCheck rs
    else sortKeyCheck rs

/-- Embedding of `main` in calculate-civic-scores.py: recalculate every
row in place, run the ranked-review pass, and (on success) write the rows
back in their original order.  The returned list is what gets written. -/
noncomputable def recalcPass (render : ℝ → String) (rows : List Row) :
    Except PyErr (List Row) :=
  match mapME (recalcRow render) rows with
  | Except.error e => Except.error e
  | Except.ok rows2 =>
    match sortKeyCheck rows2 with
    | Except.error e => Except.error e
    | Except.ok _ => Except.ok rows2

/-- The two-script pipeline the repository runs: recalculate the civicScore
column (calculate-civic-scores.py), then build the catalog from the
rewritten rows (csv-to-json.py). -/
noncomputable def composedPipeline (render : ℝ → String) (rows : List Row) :
    Except PyErr Catalog :=
  match recalcPass render rows with
  | Except.error e => Except.error e
  | Except.ok rows2 => csv_to_buildings_json rows2

theorem mapME_get (f : Row → Except PyErr Row) (l l' : List Row)
    (h : mapME f l = Except.ok l') :
    l'.length = l.length ∧
    ∀ i (hi : i < l.length) (hi' : i < l'.length),
      f (l.get ⟨i, hi⟩) = Except.ok (l'.get ⟨i, hi'⟩) := by
  induction l generalizing l' with
  | nil =>
    simp only [mapME] at h
    injection h with h2
    subst h2
    exact ⟨rfl, fun i hi _ => absurd hi (Nat.not_lt_zero i)⟩
  | cons r rs ihl =>
    simp only [mapME] at h
    cases hf : f r with
    | error e => simp only [hf] at h; exact Except.noConfusion h
    | ok r' =>
      simp only [hf] at h
      cases hm : mapME f rs with
      | error e => simp only [hm] at h; exact Except.noConfusion h
      | ok rs' =>
        simp only [hm] at h
        injection h with h2
        subst h2
        obtain ⟨hlen, hget⟩ := ihl rs' hm
        refine ⟨by simp [hlen], fun i hi hi' => ?_⟩
        cases i with
        | zero => simpa using hf
        | succ n => exact hget n (by simpa using hi) (by simpa using hi')

theorem mapME_mem (f : Row → Except PyErr Row) (l l' : List Row)
    (h : mapME f l = Except.ok l') :
    ∀ y ∈ l', ∃ x ∈ l, f x = Except.ok y := by
  induction l generalizing l' with
  | nil =>
    simp only [mapME] at h
    injection h with h2
    subst h2
    simp
  | cons r rs ihl =>
    simp only [mapME] at h
    cases hf : f r with
    | error e => simp only [hf] at h; exact Except.noConfusion h
    | ok r' =>
      simp only [hf] at h
      cases hm : mapME f rs with
      | error e => simp only [hm] at h; exact Except.noConfusion h
      | ok rs' =>
        simp only [hm] at h
        injection h with h2
        subst h2
        intro y hy
        rcases List.mem_cons.mp hy with rfl | hy'
        · exact ⟨r, List.mem_cons_self r rs, hf⟩
        · obtain ⟨x, hx, hfx⟩ := ihl rs' hm y hy'
          exact ⟨x, List.mem_cons_of_mem r hx, hfx⟩

theorem recalcRow_frame (render : ℝ → String) (r r' : Row)
    (h : recalcRow render r = Except.ok r') :
    (∀ k, k ≠ "civicScore" → List.lookup k r' = List.lookup k r) ∧
    (List.lookup "id" r = some "" → r' = r) := by
  cases h1 : List.lookup "id" r with
  | none => simp only [recalcRow, h1] at h; exact Except.noConfusion h
  | some idv =>
    simp only [recalcRow, h1] at h
    by_cases hid : idv = ""
    · rw [if_pos hid] at h
      injection h with h2
      subst h2
      exact ⟨fun k _ => rfl, fun _ => rfl⟩
    · rw [if_neg hid] at h
      cases hc : calculate_civic_score r with
      | error e => simp only [hc] at h; exact Except.noConfusion h
      | ok sb =>
        simp only [hc] at h
        cases hn : List.lookup "name" (setField r "civicScore" (render sb.1)) with
        | none => simp only [hn] at h; exact Except.noConfusion h
        | some vn =>
          simp only [hn] at h
          cases hcat : List.lookup "category" (setField r "civicScore" (render sb.1)) with
          | none => simp only [hcat] at h; exact Except.noConfusion h
          | some vc =>
            simp only [hcat] at h
            injection h with h2
            subst h2
            refine ⟨fun k hk => lookup_setField_ne r "civicScore" (render sb.1) k hk, ?_⟩
            intro habs
            injection habs with habs2
            exact absurd habs2 hid

/-- Claim C10: whenever the recalculation pass succeeds, it preserves the
number and order of the rows; for each row only the `civicScore` field can
change (every other field's lookup is unchanged); and a row with empty id is
returned completely unchanged. -/
theorem C10_theorem (render : ℝ → String) (rows rows' : List Row)
    (h : recalcPass render rows = Except.ok rows') :
    rows'.length = rows.length ∧
    ∀ i (hi : i < rows.length) (hi' : i < rows'.length),
      (∀ k, k ≠ "civicScore" →
        List.lookup k (rows'.get ⟨i, hi'⟩) = List.lookup k (rows.get ⟨i, hi⟩)) ∧
      (List.lookup "id" (rows.get ⟨i, hi⟩) = some "" →
        rows'.get ⟨i, hi'⟩ = rows.get ⟨i, hi⟩) := by
  cases hm : mapME (recalcRow render) rows with
  | error e => simp only [recalcPass, hm] at h; exact Except.noConfusion h
  | ok rows2 =>
    simp only [recalcPass, hm] at h
    cases hs : sortKeyCheck rows2 with
    | error e => simp only [hs] at h; exact Except.noConfusion h
    | ok u =>
      simp only [hs] at h
      injection h with h2
      subst h2
      obtain ⟨hlen, hget⟩ := mapME_get (recalcRow render) rows _ hm
      refine ⟨hlen, fun i hi hi' => ?_⟩
      exact recalcRow_frame render _ _ (hget i hi hi')

/-- The minimal kept row used by the recalculation witnesses. -/
def wrowMin : Row := [("id", "a"), ("name", "n"), ("category", "c")]

/-- Claim C10 witness: a skipped (empty-id) row and a kept row; the pass
keeps both rows in order, leaves the skipped row unchanged, and leaves the
kept row's `name` field unchanged. -/
theorem C10_witness :
    ([[("id", "")], setField wrowMin "civicScore" "0.0"] : List Row).length =
      ([[("id", "")], wrowMin] : List Row).length ∧
    List.lookup "name"
        (([[("id", "")], setField wrowMin "civicScore" "0.0"] : List Row).get ⟨1, by decide⟩) =
      List.lookup "name" (([[("id", "")], wrowMin] : List Row).get ⟨1, by decide⟩) := by
  have h := C10_theorem (fun _ => "0.0") [[("id", "")], wrowMin]
    [[("id", "")], setField wrowMin "civicScore" "0.0"] rfl
  exact ⟨h.1, (h.2 1 (by decide) (by decide)).1 "name" (by decide)⟩

/-! ## The composed pipeline and the civicScore column (claim C2) -/

theorem calc_setField_civicScore (r : Row) (v : String) :
    calculate_civic_score (setField r "civicScore" v) = calculate_civic_score r := by
  have hpf : ∀ (k : String) (dflt : ℚ), k ≠ "civicScore" →
      pyFloatField (setField r "civicScore" v) k dflt = pyFloatField r k dflt := by
    intro k dflt hk
    simp [pyFloatField, lookup_setField_ne r "civicScore" v k hk]
  have heff : ∀ k : String, k ≠ "civicScore" →
      effectiveAttenuation (setField r "civicScore" v) k = effectiveAttenuation r k := by
    intro k hk
    simp [effectiveAttenuation, hpf k 1 hk]
  have hdim : ∀ d ∈ dimensions,
      dimCompute d.1 (setField r "civicScore" v) d.2.1 d.2.2 =
        dimCompute d.1 r d.2.1 d.2.2 := by
    intro d hd
    have h1 : d.2.1 ≠ "civicScore" ∧ d.2.2 ≠ "civicScore" := by
      fin_cases hd <;> exact ⟨by decide, by decide⟩
    simp [dimCompute, hpf d.2.1 0 h1.1, heff d.2.2 h1.2]
  have hloop : ∀ (ds : List (String × String × String)) (acc : ℝ × List BLine),
      (∀ d ∈ ds, dimCompute d.1 (setField r "civicScore" v) d.2.1 d.2.2 =
        dimCompute d.1 r d.2.1 d.2.2) →
      calcLoop (setField r "civicScore" v) ds acc = calcLoop r ds acc := by
    intro ds
    induction ds with
    | nil => intro acc _; rfl
    | cons d ds ih =>
      intro acc hall
      cases hX : dimCompute d.1 r d.2.1 d.2.2 with
      | error e => simp only [calcLoop, hall d (List.mem_cons_self d ds), hX]
      | ok wl =>
        simp only [calcLoop, hall d (List.mem_cons_self d ds), hX]
        exact ih _ (fun d' hd' => hall d' (List.mem_cons_of_mem d hd'))
  simp only [calculate_civic_score, hloop dimensions (0, []) hdim]

theorem recalcRow_congr (render : ℝ → String) (r : Row) (v : String)
    (hk : keptRow r = true) :
    recalcRow render (setField r "civicScore" v) = recalcRow render r := by
  have hid : List.lookup "id" (setField r "civicScore" v) = List.lookup "id" r :=
    lookup_setField_ne r "civicScore" v "id" (by decide)
  cases h1 : List.lookup "id" r with
  | none =>
    rw [keptRow, h1] at hk
    simp at hk
  | some idv =>
    have hidv : idv ≠ "" := by
      intro he
      rw [keptRow, h1, he] at hk
      simp at hk
    simp only [recalcRow, hid, h1, if_neg hidv, calc_setField_civicScore,
      setField_setField]

theorem calc_wrow : calculate_civic_score wrow = Except.ok (5, exBreakdown) := by
  have e10 : (mkRat 10 1 : ℚ) = 10 := by decide
  have e4 : (mkRat 4 1 : ℚ) = 4 := by decide
  have hi1 : pyFloatField wrow "culture_impact" 0 = Except.ok 10 := by
    have h : pyFloatField wrow "culture_impact" 0 = Except.ok (mkRat 10 1) := rfl
    rwa [e10] at h
  have ha1 : effectiveAttenuation wrow "culture_attenuation" = Except.ok 4 := by
    have h : effectiveAttenuation wrow "culture_attenuation" = Except.ok (mkRat 4 1) := rfl
    rwa [e4] at h
  have hd1 : dimCompute "culture" wrow "culture_impact" "culture_attenuation" =
      Except.ok (5, ⟨"culture", 10, 4, 5⟩) := by
    refine dimCompute_ok_eval _ _ _ _ 10 4 hi1 ha1 (by norm_num) 5 ?_
    rw [sqrt_four_real]
    norm_num
  have hd2 : dimCompute "affordability" wrow "affordability_impact"
      "affordability_attenuation" = Except.ok (0, ⟨"affordability", 0, 1, 0⟩) :=
    dimCompute_zero _ _ _ _ rfl rfl
  have hd3 : dimCompute "resilience" wrow "resilience_impact"
      "resilience_attenuation" = Except.ok (0, ⟨"resilience", 0, 1, 0⟩) :=
    dimCompute_zero _ _ _ _ rfl rfl
  have hd4 : dimCompute "environment" wrow "environment_impact"
      "environment_attenuation" = Except.ok (0, ⟨"environment", 0, 1, 0⟩) :=
    dimCompute_zero _ _ _ _ rfl rfl
  have hd5 : dimCompute "noise" wrow "noise_impact"
      "noise_attenuation" = Except.ok (0, ⟨"noise", 0, 1, 0⟩) :=
    dimCompute_zero _ _ _ _ rfl rfl
  have hd6 : dimCompute "safety" wrow "safety_impact"
      "safety_attenuation" = Except.ok (0, ⟨"safety", 0, 1, 0⟩) :=
    dimCompute_zero _ _ _ _ rfl rfl
  have h5 : pyRound1 ((0 : ℝ) + 5 + 0 + 0 + 0 + 0 + 0) = 5 := by
    norm_num [pyRound1_five]
  simp only [calculate_civic_score, dimensions, calcLoop, hd1, hd2, hd3, hd4, hd5, hd6,
    exBreakdown, List.nil_append, List.singleton_append, List.cons_append, h5]

/-- The score the calculator assigns to a row, made total with default 0
(used only to state equations; rows reaching it in the theorems have a
successful computation). -/
noncomputable def scoreOf (r : Row) : ℝ :=
  match calculate_civic_score r with
  | Except.ok sb => sb.1
  | Except.error _ => 0

/-- The row the recalculation pass writes for an input row: kept rows get
their civicScore column overwritten with the rendered computed score,
skipped rows are returned verbatim. -/
noncomputable def recalcRowD (render : ℝ → String) (r : Row) : Row :=
  if keptRow r then setField r "civicScore" (render (scoreOf r)) else r

theorem keptRow_setField (r : Row) (v : String) :
    keptRow (setField r "civicScore" v) = keptRow r := by
  simp [keptRow, lookup_setField_ne r "civicScore" v "id" (by decide)]

theorem keptRow_recalcRowD (render : ℝ → String) (r : Row) :
    keptRow (recalcRowD render r) = keptRow r := by
  unfold recalcRowD
  by_cases hk : keptRow r <;> simp [hk, keptRow_setField]

theorem catOf_recalcRowD (render : ℝ → String) (r : Row) :
    catOf (recalcRowD render r) = catOf r := by
  unfold recalcRowD
  by_cases hk : keptRow r <;>
    simp [hk, catOf, lookup_setField_ne r "civicScore" _ "category" (by decide)]

theorem mapME_eq_map (f : Row → Except PyErr Row) (g : Row → Row)
    (hfg : ∀ r r', f r = Except.ok r' → r' = g r) (l l' : List Row)
    (h : mapME f l = Except.ok l') : l' = l.map g := by
  induction l generalizing l' with
  | nil =>
    simp only [mapME] at h
    injection h with h2
    subst h2
    rfl
  | cons r rs ih =>
    simp only [mapME] at h
    cases hf : f r with
    | error e => simp only [hf] at h; exact Except.noConfusion h
    | ok r' =>
      simp only [hf] at h
      cases hm : mapME f rs with
      | error e => simp only [hm] at h; exact Except.noConfusion h
      | ok rs' =>
        simp only [hm] at h
        injection h with h2
        subst h2
        rw [List.map_cons, ← hfg r r' hf, ih rs' hm]

theorem mapME_forall (f : Row → Except PyErr Row) (l l' : List Row)
    (h : mapME f l = Except.ok l') : ∀ x ∈ l, ∃ y, f x = Except.ok y := by
  induction l generalizing l' with
  | nil => simp
  | cons r rs ih =>
    simp only [mapME] at h
    cases hf : f r with
    | error e => simp only [hf] at h; exact Except.noConfusion h
    | ok r' =>
      simp only [hf] at h
      cases hm : mapME f rs with
      | error e => simp only [hm] at h; exact Except.noConfusion h
      | ok rs' =>
        intro x hx
        rcases List.mem_cons.mp hx with rfl | hx'
        · exact ⟨r', hf⟩
        · exact ih rs' hm x hx'

theorem recalcRow_eq_D (render : ℝ → String) (r r' : Row)
    (h : recalcRow render r = Except.ok r') :
    r' = recalcRowD render r ∧
    (keptRow r = true → ∃ br, calculate_civic_score r = Except.ok (scoreOf r, br)) := by
  cases h1 : List.lookup "id" r with
  | none => simp only [recalcRow, h1] at h; exact Except.noConfusion h
  | some idv =>
    simp only [recalcRow, h1] at h
    by_cases hid : idv = ""
    · rw [if_pos hid] at h
      injection h with h2
      subst h2
      have hk : keptRow r = false := by simp [keptRow, h1, hid]
      constructor
      · unfold recalcRowD
        rw [hk]
        simp
      · intro hkt
        rw [hkt] at hk
        exact Bool.noConfusion hk
    · rw [if_neg hid] at h
      have hk : keptRow r = true := by simp [keptRow, h1, hid]
      cases hc : calculate_civic_score r with
      | error e => simp only [hc] at h; exact Except.noConfusion h
      | ok sb =>
        simp only [hc] at h
        have hsc : scoreOf r = sb.1 := by simp [scoreOf, hc]
        cases hn : List.lookup "name" (setField r "civicScore" (render sb.1)) with
        | none => simp only [hn] at h; exact Except.noConfusion h
        | some vn =>
          simp only [hn] at h
          cases hcn : List.lookup "category" (setField r "civicScore" (render sb.1)) with
          | none => simp only [hcn] at h; exact Except.noConfusion h
          | some vc =>
            simp only [hcn] at h
            injection h with h2
            constructor
            · rw [← h2]
              simp [recalcRowD, hk, hsc]
            · exact fun _ => ⟨sb.2, by rw [hsc]⟩

theorem filter_map_of_comm (g : Row → Row) (p : Row → Bool)
    (hp : ∀ r, p (g r) = p r) :
    ∀ l : List Row, (l.map g).filter p = (l.filter p).map g := by
  intro l
  induction l with
  | nil => rfl
  | cons r rs ih =>
    simp only [List.map_cons, List.filter_cons, hp r]
    by_cases hpr : p r = true <;> simp [hpr, ih]

/-- Claim C2 (amended): in the two-script pipeline (civic-score
recalculation, then catalog building), the input civicScore column of the
record-producing rows is never trusted — replacing it leaves the whole
output unchanged — and, for every non-skipped input row, the record the
pipeline places in the catalog for that row (the per-category lists are
exactly the per-row records `mkBuildingD (recalcRowD render r)` of the kept
rows, in input order) carries as civicScore the value the calculator
computes from that row's six raw dimension fields, provided the rendered
score string parses back as that number — true of Python's `str` whenever
the rendering contains a decimal point.  (When it does not, the record
stores the rendering as Text: see the counterexample.) -/
theorem C2_theorem (render : ℝ → String) (rows : List Row) :
    (∀ v : String,
      composedPipeline render
          (rows.map (fun r => if keptRow r then setField r "civicScore" v else r)) =
        composedPipeline render rows) ∧
    (∀ cat : Catalog,
      composedPipeline render rows = Except.ok cat →
      (∀ r ∈ rows, keptRow r = true →
        ∃ q : ℚ, parse_value (render (scoreOf r)) = PyValue.real q ∧
          (q : ℝ) = scoreOf r) →
      (∀ c : String, lookupList c cat =
        ((rows.filter keptRow).filter (fun r => catOf r == c)).map
          (fun r => mkBuildingD (recalcRowD render r))) ∧
      (∀ r ∈ rows, keptRow r = true →
        ∃ (br : List BLine) (q : ℚ),
          calculate_civic_score r = Except.ok (scoreOf r, br) ∧
          (mkBuildingD (recalcRowD render r)).civicScore = PyValue.real q ∧
          (q : ℝ) = scoreOf r)) := by
  constructor
  · intro v
    have hrow : ∀ r : Row,
        recalcRow render (if keptRow r then setField r "civicScore" v else r) =
          recalcRow render r := by
      intro r
      by_cases hk : keptRow r
      · rw [if_pos hk]
        exact recalcRow_congr render r v hk
      · rw [if_neg hk]
    have hmap : ∀ l : List Row,
        mapME (recalcRow render)
            (l.map (fun r => if keptRow r then setField r "civicScore" v else r)) =
          mapME (recalcRow render) l := by
      intro l
      induction l with
      | nil => rfl
      | cons r rs ih => simp only [List.map_cons, mapME, hrow r, ih]
    simp only [composedPipeline, recalcPass, hmap rows]
  · intro cat hok hrt
    cases hr : recalcPass render rows with
    | error e => simp only [composedPipeline, hr] at hok; exact Except.noConfusion hok
    | ok rows2 =>
      simp only [composedPipeline, hr] at hok
      cases hm : mapME (recalcRow render) rows with
      | error e => simp only [recalcPass, hm] at hr; exact Except.noConfusion hr
      | ok rowsM =>
        simp only [recalcPass, hm] at hr
        cases hsk : sortKeyCheck rowsM with
        | error e => simp only [hsk] at hr; exact Except.noConfusion hr
        | ok u =>
          simp only [hsk] at hr
          injection hr with hreq
          subst hreq
          have hg := mapME_eq_map (recalcRow render) (recalcRowD render)
            (fun r r' hfr => (recalcRow_eq_D render r r' hfr).1) rows _ hm
          obtain ⟨_, hlists, _, hokb⟩ := csvAux_ok _ [] cat hok
          constructor
          · intro c
            rw [hlists c, hg,
              filter_map_of_comm (recalcRowD render) keptRow (keptRow_recalcRowD render),
              filter_map_of_comm (recalcRowD render) (fun r => catOf r == c)
                (fun r => by simp only [catOf_recalcRowD]),
              List.map_map]
            simp [lookupList, List.lookup, Function.comp]
          · intro r hrm hk
            obtain ⟨r', hfr⟩ := mapME_forall (recalcRow render) rows _ hm r hrm
            obtain ⟨_, hcalc⟩ := recalcRow_eq_D render r r' hfr
            obtain ⟨br, hcb⟩ := hcalc hk
            obtain ⟨q, hpq, hqc⟩ := hrt r hrm hk
            refine ⟨br, q, hcb, ?_, hqc⟩
            have hkept2 : keptRow (recalcRowD render r) = true := by
              rw [keptRow_recalcRowD]
              exact hk
            have hokb2 := hokb (recalcRowD render r)
              (by rw [hg]; exact List.mem_map_of_mem _ hrm) hkept2
            rcases mkBuilding_cases (recalcRowD render r) with ⟨_, _, _, hciv⟩ | ⟨k, _, _, herr⟩
            · rw [hciv]
              have hlk : List.lookup "civicScore" (recalcRowD render r) =
                  some (render (scoreOf r)) := by
                simp [recalcRowD, hk, lookup_setField_self]
              rw [hlk]
              exact hpq
            · rw [herr] at hokb2
              exact Except.noConfusion hokb2

theorem pyRound1_intCast (n : ℤ) : pyRound1 ((n : ℤ) : ℝ) = ((n : ℤ) : ℝ) := by
  unfold pyRound1
  rw [show (10 : ℝ) * ((n : ℤ) : ℝ) = (((10 * n : ℤ) : ℤ) : ℝ) by push_cast; ring,
    roundHalfEven_intCast]
  push_cast
  ring

theorem pyRound1_big :
    pyRound1 (100000000000000000 : ℝ) = 100000000000000000 := by
  have h := pyRound1_intCast 100000000000000000
  exact_mod_cast h

/-- `wrow` with culture impact `1e17` and its attenuation left empty: the
calculator yields the score `1e17` exactly. -/
def wrowBig : Row :=
  setField (setField wrow "culture_impact" "1e17") "culture_attenuation" ""

/-- The calculator's breakdown for `wrowBig`. -/
def bigBreakdown : List BLine :=
  [⟨"culture", 100000000000000000, 1, 100000000000000000⟩,
   ⟨"affordability", 0, 1, 0⟩, ⟨"resilience", 0, 1, 0⟩,
   ⟨"environment", 0, 1, 0⟩, ⟨"noise", 0, 1, 0⟩, ⟨"safety", 0, 1, 0⟩]

theorem calc_wrowBig :
    calculate_civic_score wrowBig = Except.ok (100000000000000000, bigBreakdown) := by
  have e17 : (mkRat 100000000000000000 1 : ℚ) = 100000000000000000 := by decide
  have hi1 : pyFloatField wrowBig "culture_impact" 0 =
      Except.ok 100000000000000000 := by
    have h : pyFloatField wrowBig "culture_impact" 0 =
        Except.ok (mkRat 100000000000000000 1) := rfl
    rwa [e17] at h
  have ha1 : effectiveAttenuation wrowBig "culture_attenuation" = Except.ok 1 := rfl
  have hd1 : dimCompute "culture" wrowBig "culture_impact" "culture_attenuation" =
      Except.ok (100000000000000000,
        ⟨"culture", 100000000000000000, 1, 100000000000000000⟩) := by
    refine dimCompute_ok_eval _ _ _ _ 100000000000000000 1 hi1 ha1 (by norm_num)
      100000000000000000 ?_
    rw [show ((1 : ℚ) : ℝ) = 1 from by norm_num, Real.sqrt_one]
    norm_num
  have hd2 : dimCompute "affordability" wrowBig "affordability_impact"
      "affordability_attenuation" = Except.ok (0, ⟨"affordability", 0, 1, 0⟩) :=
    dimCompute_zero _ _ _ _ rfl rfl
  have hd3 : dimCompute "resilience" wrowBig "resilience_impact"
      "resilience_attenuation" = Except.ok (0, ⟨"resilience", 0, 1, 0⟩) :=
    dimCompute_zero _ _ _ _ rfl rfl
  have hd4 : dimCompute "environment" wrowBig "environment_impact"
      "environment_attenuation" = Except.ok (0, ⟨"environment", 0, 1, 0⟩) :=
    dimCompute_zero _ _ _ _ rfl rfl
  have hd5 : dimCompute "noise" wrowBig "noise_impact"
      "noise_attenuation" = Except.ok (0, ⟨"noise", 0, 1, 0⟩) :=
    dimCompute_zero _ _ _ _ rfl rfl
  have hd6 : dimCompute "safety" wrowBig "safety_impact"
      "safety_attenuation" = Except.ok (0, ⟨"safety", 0, 1, 0⟩) :=
    dimCompute_zero _ _ _ _ rfl rfl
  have h17 : pyRound1 ((0 : ℝ) + 100000000000000000 + 0 + 0 + 0 + 0 + 0) =
      100000000000000000 := by
    norm_num [pyRound1_big]
  simp only [calculate_civic_score, dimensions, calcLoop, hd1, hd2, hd3, hd4, hd5, hd6,
    bigBreakdown, List.nil_append, List.singleton_append, List.cons_append, h17]

/-- Claim C2 (counterexample): with culture impact `1e17` the calculator
computes the number `1e17`, but Python renders `round(1e17, 1)` as
`"1e+17"` — no decimal point — so `parse_value` stores the record's
civicScore as `Text "1e+17"`, not the computed value.  The rendering is
instantiated to the constant `"1e+17"`, which is what `str` returns at this
score. -/
theorem C2_counterexample :
    composedPipeline (fun _ : ℝ => "1e+17") [wrowBig] =
      Except.ok [("c", [mkBuildingD (setField wrowBig "civicScore" "1e+17")])] ∧
    (mkBuildingD (setField wrowBig "civicScore" "1e+17")).civicScore =
      PyValue.str "1e+17" ∧
    calculate_civic_score wrowBig = Except.ok (100000000000000000, bigBreakdown) :=
  ⟨rfl, rfl, calc_wrowBig⟩

/-- Claim C2 witness: for the concrete row `wrow` (input civicScore column
empty, culture 10 over 4, score 5 rendered `"5.0"`), that row's record
carries civicScore `Real 5`, the calculator's value. -/
theorem C2_witness :
    (mkBuildingD (recalcRowD (fun _ : ℝ => "5.0") wrow)).civicScore = PyValue.real 5 := by
  have hscore : scoreOf wrow = 5 := by simp [scoreOf, calc_wrow]
  have hrt : ∀ r ∈ [wrow], keptRow r = true →
      ∃ q : ℚ, parse_value ((fun _ : ℝ => "5.0") (scoreOf r)) = PyValue.real q ∧
        (q : ℝ) = scoreOf r := by
    intro r hr _
    rw [List.mem_singleton] at hr
    subst hr
    refine ⟨5, ?_, ?_⟩
    · show parse_value "5.0" = PyValue.real 5
      decide
    · rw [hscore]
      norm_num
  have h := (C2_theorem (fun _ : ℝ => "5.0") [wrow]).2
    [("c", [mkBuildingD (setField wrow "civicScore" "5.0")])] rfl hrt
  obtain ⟨br, q, hcb, hciv, hqc⟩ := h.2 wrow (List.mem_singleton.mpr rfl) rfl
  have hq5 : q = 5 := by
    have h2 : (q : ℝ) = ((5 : ℚ) : ℝ) := by
      rw [hqc, hscore]
      norm_num
    exact_mod_cast h2
  rw [hciv, hq5]

/-! ## Leaderboard rendering (fix-leaderboard-display.py, the installed
`new_code` snippet) -/

/-- A JavaScript number-valued property as the snippet tests it:
`undefined`, `NaN`, or a finite number (idealised as `ℚ`; infinities are
outside the model). -/
inductive JsNum where
  | undef
  | nan
  | num (x : ℚ)
deriving DecidableEq, Repr

/-- One `playerScore` object as read by `updateLeaderboard`. -/
structure PlayerScore where
  playerName : Option String
  wealthScore : JsNum
  civicScore : JsNum
  score : JsNum
deriving DecidableEq, Repr

/-- Digit character of `n < 10`. -/
def digitChar (n : Nat) : Char := Char.ofNat (48 + n)

/-- Decimal digits of a natural number (fuel-structured so the kernel can
evaluate it). -/
def natToStrAux : Nat → Nat → List Char
  | 0, _ => []
  | f + 1, n => if n < 10 then [digitChar n] else natToStrAux f (n / 10) ++ [digitChar (n % 10)]

/-- Decimal rendering of a natural number. -/
def natToStr (n : Nat) : String := String.mk (natToStrAux (n + 1) n)

/-- JavaScript `x.toFixed(1)` idealised over `ℚ`: round `10x` to the nearest
integer, ties toward the larger integer (the ECMAScript rule, which is
Mathlib's `round`), and print with one decimal.  The `-0.0` of negative
values rounding to zero is rendered without its sign. -/
def toFixed1 (x : ℚ) : String :=
  let n : ℤ := round (10 * x)
  (if n < 0 then "-" else "") ++ natToStr (n.natAbs / 10) ++ "." ++ natToStr (n.natAbs % 10)

/-- The guarded formatting the snippet applies to each of the three score
fields: `(v !== undefined && !isNaN(v)) ? v.toFixed(1) : '0.0'`. -/
def displayScore (v : JsNum) : String :=
  match v with
  | JsNum.num x => toFixed1 x
  | _ => "0.0"

/-- `playerScore.playerName || 'Player'` (JS treats undefined and the empty
string as falsy). -/
def jsName (p : Option String) : String :=
  match p with
  | some s => if s = "" then "Player" else s
  | Option.none => "Player"

/-- The row markup produced for one participant, modelled as its data: the
rank cell `index + 1` (the ordinal suffix is computed outside the installed
snippet and is not part of this repository), the player cell, and the three
guarded score cells. -/
structure RenderedRow where
  rank : Nat
  player : String
  wealth : String
  civic : String
  score : String
deriving DecidableEq, Repr

/-- The body of the `playerScores.forEach((playerScore, index) => ...)`
iteration. -/
def renderRow (index : Nat) (p : PlayerScore) : RenderedRow :=
  { rank := index + 1
    player := jsName p.playerName
    wealth := displayScore p.wealthScore
    civic := displayScore p.civicScore
    score := displayScore p.score }

/-- The forEach loop carrying the running index. -/
def renderAll (i : Nat) : List PlayerScore → List RenderedRow
  | [] => []
  | p :: ps => renderRow i p :: renderAll (i + 1) ps

/-- The updateLeaderboard pass: it produces the rendered rows and leaves the
participant list untouched (the loop only reads `playerScore`). -/
def updateLeaderboard (ps : List PlayerScore) : List RenderedRow × List PlayerScore :=
  (renderAll 0 ps, ps)

theorem renderAll_getElem (j : Nat) (ps : List PlayerScore) (i : Nat) :
    (renderAll j ps)[i]? = ps[i]?.map (fun p => renderRow (j + i) p) := by
  induction ps generalizing j i with
  | nil => simp [renderAll]
  | cons p ps ih =>
    cases i with
    | zero => simp [renderAll]
    | succ n =>
      have harith : j + 1 + n = j + (n + 1) := by omega
      simp [renderAll, ih (j + 1) n, harith]

/-- Claim C9: the rendered entry of participant `i` is a function of that
participant alone (so another participant's invalid metric cannot affect
it); each of `wealthScore`, `civicScore`, `score` renders as `"0.0"` when
undefined or NaN and as the 1-decimal formatting otherwise; and the stored
participant list is returned unmodified by the rendering pass. -/
theorem C9_theorem (ps : List PlayerScore) (i : Nat) (p : PlayerScore)
    (h : ps[i]? = some p) :
    ((updateLeaderboard ps).1)[i]? = some (renderRow i p) ∧
    (updateLeaderboard ps).2 = ps ∧
    ((p.wealthScore = JsNum.undef ∨ p.wealthScore = JsNum.nan) →
      (renderRow i p).wealth = "0.0") ∧
    (∀ x : ℚ, p.wealthScore = JsNum.num x → (renderRow i p).wealth = toFixed1 x) ∧
    ((p.civicScore = JsNum.undef ∨ p.civicScore = JsNum.nan) →
      (renderRow i p).civic = "0.0") ∧
    (∀ x : ℚ, p.civicScore = JsNum.num x → (renderRow i p).civic = toFixed1 x) ∧
    ((p.score = JsNum.undef ∨ p.score = JsNum.nan) →
      (renderRow i p).score = "0.0") ∧
    (∀ x : ℚ, p.score = JsNum.num x → (renderRow i p).score = toFixed1 x) := by
  refine ⟨?_, rfl, ?_, ?_, ?_, ?_, ?_, ?_⟩
  · show (renderAll 0 ps)[i]? = some (renderRow i p)
    rw [renderAll_getElem 0 ps i, h]
    simp
  · rintro (hw | hw) <;> simp [renderRow, displayScore, hw]
  · intro x hw
    simp [renderRow, displayScore, hw]
  · rintro (hw | hw) <;> simp [renderRow, displayScore, hw]
  · intro x hw
    simp [renderRow, displayScore, hw]
  · rintro (hw | hw) <;> simp [renderRow, displayScore, hw]
  · intro x hw
    simp [renderRow, displayScore, hw]

/-- Claim C9 witness: a participant with NaN wealth and undefined total
renders `"0.0"` for both fields. -/
theorem C9_witness :
    (renderRow 0 ⟨some "A", JsNum.nan, JsNum.num 1, JsNum.undef⟩).wealth = "0.0" ∧
    (renderRow 0 ⟨some "A", JsNum.nan, JsNum.num 1, JsNum.undef⟩).score = "0.0" := by
  have h := C9_theorem [⟨some "A", JsNum.nan, JsNum.num 1, JsNum.undef⟩] 0
    ⟨some "A", JsNum.nan, JsNum.num 1, JsNum.undef⟩ rfl
  exact ⟨h.2.2.1 (Or.inr rfl), h.2.2.2.2.2.2.1 (Or.inl rfl)⟩
